/-
Verification of the world-morphing simulator engine
(src/client/src/lib/simulation/engine.ts) against its specification.

Shallow embedding conventions:
* JavaScript numbers are modelled as exact rationals (ℚ); decimal literals
  in the source become the corresponding rationals.  NaN can only arise in
  the source from a 0/0 neighbour average; the embedding models that case
  by the explicit empty-neighbour branch noted at each site.
* `Math.sqrt` is only ever used in comparisons against radii; those
  comparisons are embedded exactly: for d2 ≥ 0,
  sqrt d2 > r ↔ (r < 0 ∨ d2 > r²), sqrt d2 < r ↔ (0 < r ∧ d2 < r²).
* `generatePerlinNoise` (imported from ./perlin, not part of the engine),
  `Math.cos`, `Math.atan2` and `Math.PI` are environment oracles, and
  `Math.random()` is an oracle stream consumed via an explicit counter,
  one value per call, in source order.
* The grid is a total function ℕ → ℕ → Cell together with width/height;
  the one unchecked grid access in the source (`spawnBio` indexing the
  grid at a forced human spawn point) is modelled with an Option-valued
  lookup, so `tick` returns `none` exactly where the source throws.
-/
import Mathlib

namespace WorldSim

/-- Crystal-layer state of a cell: 'EMPTY' | 'ALPHA' | 'BETA' | 'BIO'. -/
inductive CellType where
  | EMPTY | ALPHA | BETA | BIO
deriving DecidableEq, Repr

/-- Per-settlement genome (interface BioAttributes).  The display colour
string is modelled as a rational (hex value resp. hue). -/
structure BioAttrs where
  minTemp : ℚ
  maxTemp : ℚ
  survivalMinTemp : ℚ
  survivalMaxTemp : ℚ
  prosperityGrowth : ℚ
  prosperityDecay : ℚ
  expansionThreshold : ℚ
  miningReward : ℚ
  migrationThreshold : ℚ
  alphaRadiationDamage : ℚ
  speciesId : ℕ
  color : ℚ
deriving DecidableEq, Repr

/-- One grid cell (interface Cell); the x/y fields of the source are the
grid coordinates and are kept implicit in the grid indexing.
`expansionPotential` is declared in the source but never read or written
outside initialisation, so it is omitted. -/
structure Cell where
  exists' : Bool
  mantleEnergy : ℚ
  expansionAccumulator : ℚ
  shrinkAccumulator : ℚ
  temperature : ℚ
  hasThunderstorm : Bool
  crystalState : CellType
  crystalEnergy : ℚ
  storedEnergy : ℚ
  isAbsorbing : Bool
  energyFlow : List (ℕ × ℕ × ℚ)
  prosperity : ℚ
  isMining : Bool
  bioAttributes : Option BioAttrs
deriving DecidableEq, Repr

/-- interface SimulationParams (fields consumed by the engine). -/
structure SimulationParams where
  mantleTimeScale : ℚ
  expansionThreshold : ℚ
  shrinkThreshold : ℚ
  mantleEnergyLevel : ℚ
  maxRadius : ℚ
  minRadius : ℚ
  distortionSpeed : ℚ
  edgeGenerationWidth : ℚ
  edgeGenerationEnergy : ℚ
  edgeGenerationOffset : ℚ
  edgeSupplyPointCount : ℕ
  edgeSupplyPointSpeed : ℚ
  mantleHeatFactor : ℚ
  diffusionRate : ℚ
  thunderstormThreshold : ℚ
  alphaEnergyDemand : ℚ
  betaEnergyDemand : ℚ
  mantleAbsorption : ℚ
  thunderstormEnergy : ℚ
  expansionCost : ℚ
  maxCrystalEnergy : ℚ
  energySharingRate : ℚ
  energyDecayRate : ℚ
  extinctionBonus : ℚ
  competitionPenalty : ℚ
  mutationRate : ℚ
  mutationStrength : ℚ
  newSpeciesThreshold : ℚ
  minProsperityGrowth : ℚ
  sameSpeciesBonus : ℚ
  humanMinTemp : ℚ
  humanMaxTemp : ℚ
  humanSurvivalMinTemp : ℚ
  humanSurvivalMaxTemp : ℚ
  humanProsperityGrowth : ℚ
  humanProsperityDecay : ℚ
  humanExpansionThreshold : ℚ
  humanMiningReward : ℚ
  humanMigrationThreshold : ℚ
  alphaRadiationDamage : ℚ
  humanSpawnPoint : Option (ℤ × ℤ)
  humanRespawnDelay : ℕ
  bioAutoSpawnCount : ℕ
  bioAutoSpawnInterval : ℕ

/-- A rotating edge supply point ({ angle, speed }). -/
structure SupplyPoint where
  angle : ℚ
  speed : ℚ
deriving DecidableEq, Repr

/-- The grid of cells, indexed grid x y (source: grid[y][x]). -/
def Grid := ℕ → ℕ → Cell

/-- Engine state (class SimulationEngine). -/
structure Engine where
  width : ℕ
  height : ℕ
  grid : Grid
  timeStep : ℕ
  cycleCount : ℕ
  params : SimulationParams
  noiseOffsetX : ℚ
  noiseOffsetY : ℚ
  edgeSupplyPoints : List SupplyPoint
  bioExtinctionStep : Option ℕ
  isFirstSpawn : Bool

/-- Environment oracles: continuous noise, trig functions, π, and the
pseudo-random stream (Math.random values, each call consumes one index). -/
structure Env where
  noise : ℚ → ℚ → ℚ
  cosQ : ℚ → ℚ
  atan2Q : ℚ → ℚ → ℚ
  piQ : ℚ
  rng : ℕ → ℚ

/-- Pointwise grid update at one coordinate. -/
def updateG (g : Grid) (x y : ℕ) (c : Cell) : Grid :=
  fun a b => if a = x && b = y then c else g a b

theorem updateG_same (g : Grid) (x y : ℕ) (c : Cell) :
    updateG g x y c x y = c := by
  simp [updateG]

theorem updateG_other (g : Grid) (x y a b : ℕ) (c : Cell)
    (h : ¬(a = x ∧ b = y)) : updateG g x y c a b = g a b := by
  simp only [updateG]
  rw [if_neg]
  simpa using h

/-- The eight Moore offsets in source order. -/
def dirs : List (ℤ × ℤ) :=
  [(-1,-1),(0,-1),(1,-1),(-1,0),(1,0),(-1,1),(0,1),(1,1)]

/-- In-bounds Moore neighbour coordinates of (x, y), source order. -/
def neighborCoords (w h x y : ℕ) : List (ℕ × ℕ) :=
  dirs.filterMap fun d =>
    let nx : ℤ := (x : ℤ) + d.1
    let ny : ℤ := (y : ℤ) + d.2
    if 0 ≤ nx ∧ nx < (w : ℤ) ∧ 0 ≤ ny ∧ ny < (h : ℤ) then
      some (nx.toNat, ny.toNat)
    else none

/-- getNeighbors(x, y, includeVoid): in-bounds Moore neighbours, with void
cells filtered out unless includeVoid. -/
def getNeighbors (g : Grid) (w h x y : ℕ) (includeVoid : Bool) :
    List (ℕ × ℕ) :=
  (neighborCoords w h x y).filter fun p => includeVoid || (g p.1 p.2).exists'

/-- Squared Euclidean distance from (x, y) to the grid centre. -/
def distSq (w h x y : ℕ) : ℚ :=
  ((x : ℚ) - (w : ℚ)/2)^2 + ((y : ℚ) - (h : ℚ)/2)^2

/-- Exact embedding of `Math.sqrt d2 > r` for d2 ≥ 0. -/
def sqrtGt (d2 r : ℚ) : Bool := r < 0 || r^2 < d2

/-- Exact embedding of `Math.sqrt d2 < r` for d2 ≥ 0. -/
def sqrtLt (d2 r : ℚ) : Bool := 0 < r && d2 < r^2

/-- Index pick `l[Math.floor(rv * l.length)]` for a Math.random value rv;
the index is clamped into the list (faithful for rv ∈ [0,1)). -/
def pick {α : Type} (l : List α) (d : α) (rv : ℚ) : α :=
  l.getD (min (Int.toNat ⌊rv * l.length⌋) (l.length - 1)) d

/-- Row-major sweep order: for y in 0..h, for x in 0..w. -/
def coords (w h : ℕ) : List (ℕ × ℕ) :=
  (List.range h).flatMap fun y => (List.range w).map fun x => (x, y)

/-! ### Grid construction (constructor + initializeGrid, lines 275-334) -/

/-- One initial cell of initializeGrid (lines 300-329); rv is the
Math.random() value drawn for the mantle energy of an existing cell (the
ternary draws only in that case, see mkEngine). -/
def initCell (w h x y : ℕ) (rv : ℚ) : Cell :=
  let d2 := distSq w h x y
  let initialRadius : ℚ := (min w h : ℕ) * 0.4
  let ex := sqrtLt d2 initialRadius
  let crystalState :=
    if ex && sqrtLt d2 3 then CellType.ALPHA else CellType.EMPTY
  { exists' := ex
    mantleEnergy := if ex then 50 + rv * 20 else 0
    expansionAccumulator := 0
    shrinkAccumulator := 0
    temperature := 0
    hasThunderstorm := false
    crystalState := crystalState
    crystalEnergy := 0
    storedEnergy := 10
    isAbsorbing := false
    energyFlow := []
    prosperity := 0
    isMining := false
    bioAttributes := none }

/-- Engine constructor (lines 275-291): random noise offsets, uniformly
spread supply points, then initializeGrid (one rng draw per land cell,
in row-major order). -/
def mkEngine (env : Env) (w h : ℕ) (p : SimulationParams) (r : ℕ) :
    Engine × ℕ :=
  let count := if p.edgeSupplyPointCount = 0 then 3 else p.edgeSupplyPointCount
  let baseSpeed := if p.edgeSupplyPointSpeed = 0 then 0.05 else p.edgeSupplyPointSpeed
  let points := (List.range count).map fun i =>
    ({ angle := ((i : ℚ) / (count : ℚ)) * env.piQ * 2, speed := baseSpeed } : SupplyPoint)
  let noiseX := env.rng r * 1000
  let noiseY := env.rng (r + 1) * 1000
  let (g, r') := (coords w h).foldl
    (fun (st : Grid × ℕ) q =>
      let (g, r) := st
      let d2 := distSq w h q.1 q.2
      if sqrtLt d2 ((min w h : ℕ) * 0.4) then
        (updateG g q.1 q.2 (initCell w h q.1 q.2 (env.rng r)), r + 1)
      else (updateG g q.1 q.2 (initCell w h q.1 q.2 0), r))
    ((fun _ _ => initCell w h 0 0 0), r + 2)
  ({ width := w, height := h, grid := g, timeStep := 0, cycleCount := 0,
     params := p, noiseOffsetX := noiseX, noiseOffsetY := noiseY,
     edgeSupplyPoints := points, bioExtinctionStep := none,
     isFirstSpawn := true }, r')

/-! ### Mantle layer (updateMantleLayer, lines 348-528) -/

/-- Relaxation, diffusion and finiteness-guard part of the Phase A energy
update (lines 380-402): noise forcing toward the target level, then the
diffusion blend with the average mantle energy of the existing neighbours.
The blend is skipped when there is no existing neighbour (the source's
0/0 average is NaN and the isNaN test skips the blend).  The subsequent
NaN/infinity guard of the source cannot fire over ℚ and is the identity
here. -/
def mantleBaseEnergy (env : Env) (e : Engine) (x y : ℕ) : ℚ :=
  let cell := e.grid x y
  let p := e.params
  let noiseVal := env.noise ((x : ℚ) * 0.1 + e.noiseOffsetX)
    ((y : ℚ) * 0.1 + e.noiseOffsetY)
  let energyFluctuation := 1 + noiseVal * 0.1
  let nbrs := getNeighbors e.grid e.width e.height x y false
  let targetEnergy := p.mantleEnergyLevel * energyFluctuation
  let newEnergy := cell.mantleEnergy * (1 - p.mantleTimeScale)
    + targetEnergy * p.mantleTimeScale
  if nbrs.isEmpty then newEnergy
  else
    let avgEnergy := (nbrs.map fun q => (e.grid q.1 q.2).mantleEnergy).sum
      / (nbrs.length : ℚ)
    newEnergy * (1 - 0.4) + avgEnergy * 0.4

/-- The edge-supply eligibility test of the source (line 411): the cell
has fewer than eight existing neighbours.  The second disjunct is kept
verbatim from the source although it is identically false (getNeighbors
has already filtered out void cells). -/
def hasVoidNeighbor (e : Engine) (x y : ℕ) : Bool :=
  let nbrs := getNeighbors e.grid e.width e.height x y false
  nbrs.length < 8 || nbrs.any fun q => !(e.grid q.1 q.2).exists'

/-- Supply-point influence maximum (lines 415-437): over all supply
points whose circular angular distance diff to the cell's polar angle is
below π/4, the largest cos(4·diff), starting from 0. -/
def maxInfluence (env : Env) (e : Engine) (x y : ℕ) : ℚ :=
  let angle := env.atan2Q ((y : ℚ) - (e.height : ℚ)/2) ((x : ℚ) - (e.width : ℚ)/2)
  let normalizedAngle := if angle < 0 then angle + env.piQ * 2 else angle
  e.edgeSupplyPoints.foldl
    (fun m point =>
      let diff := |normalizedAngle - point.angle|
      let diff := if diff > env.piQ then env.piQ * 2 - diff else diff
      if diff < env.piQ / 4 then max m (env.cosQ (diff * 4)) else m)
    0

/-- Full Phase A new mantle energy of a land cell (lines 380-450): base
update, edge supply injection (gated on hasVoidNeighbor and a positive
maximal influence), then the Alpha-crystal draw. -/
def mantleNewEnergy (env : Env) (e : Engine) (x y : ℕ) : ℚ :=
  let e1 := mantleBaseEnergy env e x y
  let e2 :=
    if hasVoidNeighbor e x y then
      let infl := maxInfluence env e x y
      if infl > 0 then e1 + e.params.edgeGenerationEnergy * infl else e1
    else e1
  if (e.grid x y).crystalState = CellType.ALPHA then
    e2 - e2 * e.params.mantleAbsorption
  else e2

/-- A queued terrain change. -/
inductive TerrainAction where
  | expand | shrink
deriving DecidableEq, Repr

/-- One entry of the terrainChanges queue. -/
structure TerrainChange where
  x : ℕ
  y : ℕ
  action : TerrainAction
deriving DecidableEq, Repr

/-- Shrink arm and protected core of Phase B for one land cell
(lines 472-492): accumulate the shortfall below shrinkThreshold outside
the protected disk, fire a shrink above 200, decay by 2 otherwise; inside
the protected disk force the accumulator to 0.  The inner
`if (!cell.exists)` of the source (line 488) is dead code (the whole
body runs under `if (cell.exists)`) and is omitted. -/
def mantleShrinkArm (p : SimulationParams) (x y : ℕ) (d2 : ℚ) (cell : Cell) :
    Cell × List TerrainChange :=
  if sqrtGt d2 p.minRadius then
    if cell.mantleEnergy < p.shrinkThreshold then
      let acc := cell.shrinkAccumulator + (p.shrinkThreshold - cell.mantleEnergy)
      if acc > 200 then
        ({ cell with shrinkAccumulator := 0 }, [⟨x, y, TerrainAction.shrink⟩])
      else ({ cell with shrinkAccumulator := acc }, [])
    else ({ cell with shrinkAccumulator := max 0 (cell.shrinkAccumulator - 2) }, [])
  else ({ cell with shrinkAccumulator := 0 }, [])

/-- Expansion arm of Phase B for one land cell (lines 495-511):
accumulate the excess above expansionThreshold inside maxRadius, fire an
expansion onto a random void Moore neighbour above 100 (paying 20 mantle
energy), decay by 1 otherwise. -/
def mantleExpandArm (env : Env) (p : SimulationParams) (w h x y : ℕ)
    (g : Grid) (d2 : ℚ) (cell : Cell) (r : ℕ) :
    Cell × List TerrainChange × ℕ :=
  if cell.mantleEnergy > p.expansionThreshold ∧ sqrtLt d2 p.maxRadius then
    let acc := cell.expansionAccumulator + (cell.mantleEnergy - p.expansionThreshold)
    if acc > 100 then
      let voidNbrs := (getNeighbors g w h x y true).filter
        fun q => !(g q.1 q.2).exists'
      if voidNbrs.isEmpty then
        ({ cell with expansionAccumulator := 0 }, [], r)
      else
        let target := pick voidNbrs (0, 0) (env.rng r)
        ({ cell with expansionAccumulator := 0,
                     mantleEnergy := cell.mantleEnergy - 20 },
         [⟨target.1, target.2, TerrainAction.expand⟩], r + 1)
    else ({ cell with expansionAccumulator := acc }, [], r)
  else
    ({ cell with expansionAccumulator := max 0 (cell.expansionAccumulator - 1) },
     [], r)

/-- Phase B sweep body for one cell (lines 466-513): the shrink arm, then
the expansion arm, with the queued changes appended in source order. -/
def mantlePhaseBStep (env : Env) (e : Engine)
    (st : Grid × List TerrainChange × ℕ) (q : ℕ × ℕ) :
    Grid × List TerrainChange × ℕ :=
  let g := st.1
  let x := q.1
  let y := q.2
  let cell := g x y
  if !cell.exists' then st
  else
    let d2 := distSq e.width e.height x y
    let sc := mantleShrinkArm e.params x y d2 cell
    let ec := mantleExpandArm env e.params e.width e.height x y g d2 sc.1 st.2.2
    (updateG g x y ec.1, st.2.1 ++ sc.2 ++ ec.2.1, ec.2.2)

/-- Apply one queued terrain change (lines 517-527). -/
def applyTerrainChange (g : Grid) (c : TerrainChange) : Grid :=
  let cell := g c.x c.y
  match c.action with
  | TerrainAction.expand =>
    updateG g c.x c.y { cell with exists' := true, mantleEnergy := 30 }
  | TerrainAction.shrink =>
    updateG g c.x c.y { cell with exists' := false, mantleEnergy := 0,
                                  crystalState := CellType.EMPTY }

/-- The pre-sweep advancement of updateMantleLayer (lines 358-370):
noise offsets move by distortionSpeed and every supply point rotates by
the (falsy-defaulted) supply speed, wrapped into [0, 2π]. -/
def mantleAdvanced (env : Env) (e : Engine) : Engine :=
  let p := e.params
  let supplySpeed := if p.edgeSupplyPointSpeed = 0 then 0.05 else p.edgeSupplyPointSpeed
  { e with
    noiseOffsetX := e.noiseOffsetX + p.distortionSpeed
    noiseOffsetY := e.noiseOffsetY + p.distortionSpeed
    edgeSupplyPoints := e.edgeSupplyPoints.map fun (pt : SupplyPoint) =>
      let a := pt.angle + supplySpeed
      let a := if a > env.piQ * 2 then a - env.piQ * 2 else a
      let a := if a < 0 then a + env.piQ * 2 else a
      { angle := a, speed := supplySpeed } }

/-- The engine after Phase A of updateMantleLayer (lines 372-461): the
staged energies are computed against the advanced engine and written
back to land cells. -/
def mantleStaged (env : Env) (e : Engine) : Engine :=
  { mantleAdvanced env e with
    grid := fun x y =>
      if ((mantleAdvanced env e).grid x y).exists' = true then
        { (mantleAdvanced env e).grid x y with
          mantleEnergy := mantleNewEnergy env (mantleAdvanced env e) x y }
      else (mantleAdvanced env e).grid x y }

/-- updateMantleLayer (lines 348-528): advance the noise offsets and the
supply points, compute the staged Phase A energies and write them back to
land cells, then run the Phase B terrain sweep and apply the queue. -/
def updateMantleLayer (env : Env) (e : Engine) (r : ℕ) : Engine × ℕ :=
  let eA := mantleStaged env e
  let swept :=
    (coords eA.width eA.height).foldl (mantlePhaseBStep env eA)
      (eA.grid, ([] : List TerrainChange), r)
  ({ eA with grid := swept.2.1.foldl applyTerrainChange swept.1 }, swept.2.2)

/-! ### Climate layer (updateClimateLayer, lines 538-583) -/

/-- Per-cell climate computation (lines 543-572): diffusion toward the
existing-neighbour average, mantle heating, constant radiative cooling,
then the thunderstorm draw.  A land cell with no existing neighbour gets
a NaN temperature in the source (0/0 average); NaN is unrepresentable
in ℚ, so that corner keeps the old temperature here; the storm comparison
is false on NaN in the source and the flag is cleared, exactly as here.
The Math.random() call is short-circuited: a value is consumed only when
tempDiff > thunderstormThreshold. -/
def climateCellStep (env : Env) (p : SimulationParams) (w h : ℕ)
    (st : Grid × (ℕ → ℕ → ℚ) × ℕ) (q : ℕ × ℕ) :
    Grid × (ℕ → ℕ → ℚ) × ℕ :=
  let (g, tmap, r) := st
  let (x, y) := q
  let cell := g x y
  if !cell.exists' then (g, tmap, r)
  else
    let nbrs := getNeighbors g w h x y false
    if nbrs.isEmpty then
      (updateG g x y { cell with hasThunderstorm := false }, tmap, r)
    else
      let avgTemp := (nbrs.map fun q => (g q.1 q.2).temperature).sum
        / (nbrs.length : ℚ)
      let newTemp := cell.temperature * (1 - p.diffusionRate) + avgTemp * p.diffusionRate
      let targetTemp := -100 + cell.mantleEnergy / 100 * p.mantleHeatFactor
      let newTemp := newTemp * 0.9 + targetTemp * 0.1
      let newTemp := newTemp - 0.5
      let tmap' : ℕ → ℕ → ℚ := fun a b => if a = x && b = y then newTemp else tmap a b
      let tempDiff := |cell.temperature - avgTemp|
      if tempDiff > p.thunderstormThreshold then
        (updateG g x y { cell with hasThunderstorm := env.rng r < 0.1 }, tmap', r + 1)
      else
        (updateG g x y { cell with hasThunderstorm := false }, tmap', r)

/-- updateClimateLayer (lines 538-583): sweep, then commit the staged
temperatures to land cells. -/
def updateClimateLayer (env : Env) (e : Engine) (r : ℕ) : Engine × ℕ :=
  let swept :=
    (coords e.width e.height).foldl (climateCellStep env e.params e.width e.height)
      (e.grid, (fun x y => (e.grid x y).temperature), r)
  let g1 := swept.1
  let tmap := swept.2.1
  let g2 : Grid := fun x y =>
    if (g1 x y).exists' then { g1 x y with temperature := tmap x y } else g1 x y
  ({ e with grid := g2 }, swept.2.2)

/-! ### Crystal layer (updateCrystalLayer, lines 595-739) -/

/-- Stored energy after mantle absorption, thunderstorm charge and the
maintenance deduction, before the upper clamp (lines 613-629). -/
def metabPreClamp (p : SimulationParams) (cell : Cell) : ℚ :=
  let s := cell.storedEnergy
  let s := if cell.mantleEnergy > 10 then s + cell.mantleEnergy * p.mantleAbsorption else s
  let s := if cell.hasThunderstorm then s + p.thunderstormEnergy else s
  let demand := if cell.crystalState = CellType.ALPHA then p.alphaEnergyDemand
    else p.betaEnergyDemand
  s - demand

/-- Metabolism body for one existing, non-empty, non-bio cell
(lines 610-644): display reset, mantle absorption (note: the source gates
it only on mantleEnergy > 10, not on the Alpha state), storm charge,
maintenance, the upper clamp, and the Alpha exhaustion demotion. -/
def metabolismCell (p : SimulationParams) (cell : Cell) : Cell :=
  let cell := { cell with isAbsorbing := false, crystalEnergy := 0 }
  let cell :=
    if cell.mantleEnergy > 10 then
      let absorbed := cell.mantleEnergy * p.mantleAbsorption
      { cell with storedEnergy := cell.storedEnergy + absorbed,
                  crystalEnergy := cell.crystalEnergy + absorbed,
                  isAbsorbing := true }
    else cell
  let cell :=
    if cell.hasThunderstorm then
      { cell with storedEnergy := cell.storedEnergy + p.thunderstormEnergy,
                  crystalEnergy := cell.crystalEnergy + p.thunderstormEnergy }
    else cell
  let demand := if cell.crystalState = CellType.ALPHA then p.alphaEnergyDemand
    else p.betaEnergyDemand
  let cell := { cell with storedEnergy := cell.storedEnergy - demand }
  let cell :=
    if cell.storedEnergy > p.maxCrystalEnergy then
      { cell with storedEnergy := p.maxCrystalEnergy }
    else cell
  if (cell : Cell).storedEnergy ≤ 0 then
    if cell.crystalState = CellType.ALPHA then
      { cell with crystalState := CellType.BETA, storedEnergy := 0 }
    else cell
  else cell

/-- Metabolism sub-pass over the grid (lines 605-646). -/
def crystalMetabolism (p : SimulationParams) (g : Grid) : Grid :=
  fun x y =>
    let cell := g x y
    if cell.exists' ∧ cell.crystalState ≠ CellType.EMPTY ∧
        cell.crystalState ≠ CellType.BIO then
      metabolismCell p cell
    else cell

/-- Single pair transfer amount (lines 668-678) from an Alpha cell with
stored energy cs to an Alpha neighbour with stored energy ns (cs > ns):
10% of the difference times the sharing rate, capped at 5, with the
anti-overshoot fallback to 40% of the difference. -/
def transferAmount (p : SimulationParams) (cs ns : ℚ) : ℚ :=
  let diff := cs - ns
  let t := diff * 0.1 * p.energySharingRate
  let t := if t > 5 then 5 else t
  if cs - t < ns + t then diff * 0.4 else t

/-- Energy-sharing contribution of one Alpha cell (lines 658-696): stage
outgoing/incoming deltas for transfers above 0.1 and record the flows on
the sender for display.  Stored energies are not modified during this
sweep, only energyFlow lists are, so all reads come from the live grid
exactly as in the source. -/
def crystalFlowStep (p : SimulationParams) (w h : ℕ)
    (st : Grid × (ℕ → ℕ → ℚ)) (q : ℕ × ℕ) : Grid × (ℕ → ℕ → ℚ) :=
  let (g, delta) := st
  let (x, y) := q
  let cell := g x y
  if cell.crystalState = CellType.ALPHA then
    let nbrs := getNeighbors g w h x y false
    let alphaNbrs := nbrs.filter fun q =>
      decide ((g q.1 q.2).crystalState = CellType.ALPHA)
    alphaNbrs.foldl
      (fun (st : Grid × (ℕ → ℕ → ℚ)) nq =>
        let (g, delta) := st
        let ns := (g nq.1 nq.2).storedEnergy
        if cell.storedEnergy > ns then
          let t := transferAmount p cell.storedEnergy ns
          if t > 0.1 then
            let delta' : ℕ → ℕ → ℚ := fun a b =>
              if a = x && b = y then delta a b - t
              else if a = nq.1 && b = nq.2 then delta a b + t * (1 - p.energyDecayRate)
              else delta a b
            let gcell := g x y
            (updateG g x y
              { gcell with energyFlow := gcell.energyFlow ++ [(nq.1, nq.2, t)] },
             delta')
          else (g, delta)
        else (g, delta))
      (g, delta)
  else (g, delta)

/-- Commit the staged sharing deltas to Alpha cells with the lower and
upper clamps (lines 699-708). -/
def crystalFlowCommit (p : SimulationParams) (g : Grid) (delta : ℕ → ℕ → ℚ) :
    Grid :=
  fun x y =>
    let cell := g x y
    if cell.crystalState = CellType.ALPHA then
      let s := cell.storedEnergy + delta x y
      let s := if s < 0 then 0 else s
      let s := if s > p.maxCrystalEnergy then p.maxCrystalEnergy else s
      { cell with storedEnergy := s }
    else cell

/-- One entry of the crystalChanges queue. -/
structure CrystalChange where
  x : ℕ
  y : ℕ
  type : CellType
deriving DecidableEq, Repr

/-- Propagation sweep body for one cell (lines 711-729): an Alpha cell
with stored energy above twice the expansion cost picks a random empty
land neighbour, queues an Alpha there, and pays the expansion cost. -/
def crystalExpandStep (env : Env) (p : SimulationParams) (w h : ℕ)
    (st : Grid × List CrystalChange × ℕ) (q : ℕ × ℕ) :
    Grid × List CrystalChange × ℕ :=
  let (g, changes, r) := st
  let (x, y) := q
  let cell := g x y
  if cell.crystalState = CellType.ALPHA ∧ cell.storedEnergy > p.expansionCost * 2 then
    let nbrs := getNeighbors g w h x y false
    let emptyNbrs := nbrs.filter fun q =>
      decide ((g q.1 q.2).exists' = true ∧ (g q.1 q.2).crystalState = CellType.EMPTY)
    if emptyNbrs.isEmpty then (g, changes, r)
    else
      let target := pick emptyNbrs (0, 0) (env.rng r)
      (updateG g x y { cell with storedEnergy := cell.storedEnergy - p.expansionCost },
       changes ++ [⟨target.1, target.2, CellType.ALPHA⟩], r + 1)
  else (g, changes, r)

/-- Apply one queued propagation entry (lines 732-738): targets already
filled are skipped; a fresh crystal starts with stored energy 10. -/
def applyCrystalChange (g : Grid) (c : CrystalChange) : Grid :=
  let cell := g c.x c.y
  if cell.crystalState = CellType.EMPTY then
    updateG g c.x c.y { cell with crystalState := c.type, storedEnergy := 10 }
  else g

/-- The energyFlow reset of sub-pass 2 (lines 650-654). -/
def crystalCleared (g : Grid) : Grid :=
  fun x y => { g x y with energyFlow := [] }

/-- The staged delta accumulation of sub-pass 2 (lines 656-696). -/
def crystalFlowed (p : SimulationParams) (w h : ℕ) (g : Grid) :
    Grid × (ℕ → ℕ → ℚ) :=
  (coords w h).foldl (crystalFlowStep p w h) (g, fun _ _ => (0 : ℚ))

/-- The propagation sweep of sub-pass 3 (lines 711-729). -/
def crystalExpanded (env : Env) (p : SimulationParams) (w h : ℕ) (g : Grid)
    (r : ℕ) : Grid × List CrystalChange × ℕ :=
  (coords w h).foldl (crystalExpandStep env p w h) (g, ([] : List CrystalChange), r)

/-- updateCrystalLayer (lines 595-739): metabolism, energyFlow reset,
the Alpha-network flow stage and commit, then propagation. -/
def updateCrystalLayer (env : Env) (e : Engine) (r : ℕ) : Engine × ℕ :=
  let g2 := crystalCleared (crystalMetabolism e.params e.grid)
  let fl := crystalFlowed e.params e.width e.height g2
  let g4 := crystalFlowCommit e.params fl.1 fl.2
  let sw := crystalExpanded env e.params e.width e.height g4 r
  ({ e with grid := sw.2.1.foldl applyCrystalChange sw.1 }, sw.2.2)

/-! ### Bio layer (updateBioLayer and helpers, lines 741-1138) -/

/-- One entry of the bio change queue (the change union of
updateBioLayer); STATE changes always carry value 0 in the source. -/
inductive BioChange where
  | state (x y : ℕ)
  | prosperity (x y : ℕ) (value : ℚ)
  | miningState (x y : ℕ) (value : Bool)
  | newBio (x y : ℕ) (prosperity : ℚ) (attrs : BioAttrs)
  | migrate (x y : ℕ) (prosperity : ℚ) (attrs : BioAttrs)
deriving DecidableEq, Repr

/-- distributeExtinctionBonus (lines 977-991): split the bonus evenly
over the existing neighbours; Alpha/Beta neighbours gain stored energy,
Bio neighbours gain prosperity; no clamping anywhere. -/
def distributeExtinctionBonus (w h : ℕ) (g : Grid) (x y : ℕ) (bonus : ℚ) :
    Grid :=
  let nbrs := getNeighbors g w h x y false
  if nbrs.isEmpty then g
  else
    let per := bonus / (nbrs.length : ℚ)
    nbrs.foldl
      (fun g q =>
        let n := g q.1 q.2
        if n.crystalState = CellType.ALPHA ∨ n.crystalState = CellType.BETA then
          updateG g q.1 q.2 { n with storedEnergy := n.storedEnergy + per }
        else if n.crystalState = CellType.BIO then
          updateG g q.1 q.2 { n with prosperity := n.prosperity + per }
        else g)
      g

/-- Staged new prosperity of a settlement (lines 822-872): comfort-band
growth (with the non-human floor) or decay, same/different-species
neighbour effects, Alpha radiation, and the mining reward (granted
whenever a Beta neighbour exists). -/
def bioNewProsperity (p : SimulationParams) (w h : ℕ) (g : Grid) (x y : ℕ)
    (attrs : BioAttrs) : ℚ :=
  let cell := g x y
  let base :=
    if cell.temperature ≥ attrs.minTemp ∧ cell.temperature ≤ attrs.maxTemp then
      if attrs.speciesId ≠ 0 then max attrs.prosperityGrowth p.minProsperityGrowth
      else attrs.prosperityGrowth
    else -attrs.prosperityDecay
  let nbrs := getNeighbors g w h x y false
  let bioNbrs := nbrs.filter fun q =>
    decide ((g q.1 q.2).crystalState = CellType.BIO ∧ (g q.1 q.2).bioAttributes.isSome)
  let nbrEffect := bioNbrs.foldl
    (fun acc q =>
      let n := g q.1 q.2
      if (n.bioAttributes.getD attrs).speciesId = attrs.speciesId then
        acc + p.sameSpeciesBonus
      else if cell.prosperity < n.prosperity then acc - p.competitionPenalty
      else acc)
    0
  let alphaCount := (nbrs.filter fun q =>
    decide ((g q.1 q.2).crystalState = CellType.ALPHA)).length
  let radiation :=
    if alphaCount ≠ 0 then
      (alphaCount : ℚ) * max (attrs.prosperityGrowth + 0.2) p.alphaRadiationDamage
    else 0
  let betaNbrs := nbrs.filter fun q =>
    decide ((g q.1 q.2).crystalState = CellType.BETA)
  let mining := if betaNbrs.isEmpty then 0 else attrs.miningReward
  cell.prosperity + (base + nbrEffect - radiation + mining)

/-- Mutate one attribute value (lines 895-906): on a rate hit, shift by
±value·mutationStrength with a random sign; returns the new value, the
new-species flag contribution, and the advanced rng counter. -/
def mutateVal (env : Env) (p : SimulationParams) (v : ℚ) (r : ℕ) :
    ℚ × Bool × ℕ :=
  if env.rng r < p.mutationRate then
    let sign : ℚ := if env.rng (r + 1) > 0.5 then 1 else -1
    let change := v * p.mutationStrength * sign
    (v + change, |change| > |v| * p.newSpeciesThreshold, r + 2)
  else (v, false, r + 1)

/-- Build the mutated attribute set of an expansion (lines 888-911),
mutating the seven listed fields in source order and, on a new-species
hit, drawing a fresh speciesId and display colour (hue). -/
def mutateAttrs (env : Env) (p : SimulationParams) (attrs : BioAttrs) (r : ℕ) :
    BioAttrs × ℕ :=
  let m1 := mutateVal env p attrs.minTemp r
  let m2 := mutateVal env p attrs.maxTemp m1.2.2
  let m3 := mutateVal env p attrs.prosperityGrowth m2.2.2
  let m4 := mutateVal env p attrs.prosperityDecay m3.2.2
  let m5 := mutateVal env p attrs.expansionThreshold m4.2.2
  let m6 := mutateVal env p attrs.miningReward m5.2.2
  let m7 := mutateVal env p attrs.migrationThreshold m6.2.2
  let r := m7.2.2
  let newAttrs := { attrs with
    minTemp := m1.1, maxTemp := m2.1, prosperityGrowth := m3.1,
    prosperityDecay := m4.1, expansionThreshold := m5.1,
    miningReward := m6.1, migrationThreshold := m7.1 }
  if m1.2.1 || m2.2.1 || m3.2.1 || m4.2.1 || m5.2.1 || m6.2.1 || m7.2.1 then
    ({ newAttrs with speciesId := Int.toNat ⌊env.rng r * 100000⌋,
                     color := env.rng (r + 1) * 360 }, r + 2)
  else (newAttrs, r)

/-- The best-temperature migration target (lines 928-938): the empty
land neighbour whose temperature is closest to mid, first wins ties. -/
def bioMigrationTarget (g : Grid) (mid : ℚ) (l : List (ℕ × ℕ)) : ℕ × ℕ :=
  match l with
  | [] => (0, 0)
  | first :: _ =>
    l.foldl
      (fun best q =>
        if |(g q.1 q.2).temperature - mid| <
            |(g best.1 best.2).temperature - mid| then q
        else best)
      first

/-- The grid effect of the sweep body of updateBioLayer for one cell
(lines 807-945): the only direct grid mutations of the sweep are the two
extinction-bonus distributions (survival-band death and prosperity
exhaustion); everything else is queued. -/
def bioCellGrid (p : SimulationParams) (w h : ℕ) (g : Grid) (x y : ℕ) :
    Grid :=
  match (g x y).bioAttributes with
  | none => g
  | some attrs =>
    if (g x y).crystalState ≠ CellType.BIO then g
    else if (g x y).temperature < attrs.survivalMinTemp ∨
        (g x y).temperature > attrs.survivalMaxTemp then
      distributeExtinctionBonus w h g x y p.extinctionBonus
    else if bioNewProsperity p w h g x y attrs ≤ 0 then
      distributeExtinctionBonus w h g x y p.extinctionBonus
    else g

/-- The queued changes and rng advance of the sweep body of
updateBioLayer for one cell (lines 807-945): survival band, mining,
prosperity staging, death, expansion with mutation, and migration to the
best-temperature empty land neighbour. -/
def bioCellChanges (env : Env) (p : SimulationParams) (w h : ℕ) (g : Grid)
    (x y : ℕ) (r : ℕ) : List BioChange × ℕ :=
  match (g x y).bioAttributes with
  | none => ([], r)
  | some attrs =>
    if (g x y).crystalState ≠ CellType.BIO then ([], r)
    else if (g x y).temperature < attrs.survivalMinTemp ∨
        (g x y).temperature > attrs.survivalMaxTemp then
      ([BioChange.state x y], r)
    else
      let newProsperity := bioNewProsperity p w h g x y attrs
      let nbrs := getNeighbors g w h x y false
      let betaNbrs := nbrs.filter fun q =>
        decide ((g q.1 q.2).crystalState = CellType.BETA)
      let mined : List BioChange × ℕ × Bool :=
        if betaNbrs.isEmpty then ([], r, false)
        else
          let target := pick betaNbrs (0, 0) (env.rng r)
          ([BioChange.state target.1 target.2], r + 1, true)
      let changes := mined.1 ++ [BioChange.miningState x y mined.2.2]
      let r := mined.2.1
      let changes := changes ++ [BioChange.prosperity x y newProsperity]
      if newProsperity ≤ 0 then (changes ++ [BioChange.state x y], r)
      else
        let expanded : List BioChange × ℕ :=
          if newProsperity > attrs.expansionThreshold then
            let emptyNbrs := nbrs.filter fun q =>
              decide ((g q.1 q.2).exists' = true ∧
                (g q.1 q.2).crystalState = CellType.EMPTY)
            if emptyNbrs.isEmpty then ([], r)
            else
              let target := pick emptyNbrs (0, 0) (env.rng r)
              let mt := mutateAttrs env p attrs (r + 1)
              ([BioChange.newBio target.1 target.2 30 mt.1,
                BioChange.prosperity x y (newProsperity - 30)], mt.2)
          else ([], r)
        let changes := changes ++ expanded.1
        let r := expanded.2
        if newProsperity < attrs.migrationThreshold then
          let emptyNbrs := nbrs.filter fun q =>
            decide ((g q.1 q.2).exists' = true ∧
              (g q.1 q.2).crystalState = CellType.EMPTY)
          if emptyNbrs.isEmpty then (changes, r)
          else
            let best := bioMigrationTarget g
              ((attrs.minTemp + attrs.maxTemp) / 2) emptyNbrs
            (changes ++ [BioChange.migrate best.1 best.2 newProsperity attrs,
                         BioChange.state x y], r)
        else (changes, r)

/-- Sweep body of updateBioLayer for one cell (lines 807-945), combining
the grid effect and the queued changes.  The extinction-bonus mutation
and the change computation read the same pre-step cell state, as in the
source (the bonus is distributed on a `continue` path, after which the
cell's queue entries for this step are already fixed). -/
def bioCellStep (env : Env) (p : SimulationParams) (w h : ℕ)
    (st : Grid × List BioChange × ℕ) (q : ℕ × ℕ) :
    Grid × List BioChange × ℕ :=
  (bioCellGrid p w h st.1 q.1 q.2,
   st.2.1 ++ (bioCellChanges env p w h st.1 q.1 q.2 st.2.2).1,
   (bioCellChanges env p w h st.1 q.1 q.2 st.2.2).2)

/-- Apply one queued bio change (lines 948-974). -/
def applyBioChange (g : Grid) (c : BioChange) : Grid :=
  match c with
  | BioChange.state x y =>
    updateG g x y { g x y with crystalState := CellType.EMPTY, prosperity := 0,
                               bioAttributes := none }
  | BioChange.prosperity x y v =>
    updateG g x y { g x y with prosperity := v }
  | BioChange.miningState x y b =>
    updateG g x y { g x y with isMining := b }
  | BioChange.newBio x y pros attrs =>
    let cell := g x y
    if cell.crystalState = CellType.EMPTY then
      updateG g x y { cell with crystalState := CellType.BIO, prosperity := pros,
                                bioAttributes := some attrs }
    else g
  | BioChange.migrate x y pros attrs =>
    let cell := g x y
    if cell.crystalState = CellType.EMPTY then
      updateG g x y { cell with crystalState := CellType.BIO, prosperity := pros,
                                bioAttributes := some attrs }
    else g

/-- The per-settlement sweep of updateBioLayer plus the commit pass
(lines 805-975). -/
def bioSweepAndCommit (env : Env) (e : Engine) (r : ℕ) : Engine × ℕ :=
  let swept :=
    (coords e.width e.height).foldl (bioCellStep env e.params e.width e.height)
      (e.grid, ([] : List BioChange), r)
  let g2 := swept.2.1.foldl applyBioChange swept.1
  ({ e with grid := g2 }, swept.2.2)

/-- The Chebyshev-radius-3 Alpha-free test of spawnRandomSpecies
(lines 1075-1089). -/
def alphaSafe (w h : ℕ) (g : Grid) (x y : ℕ) : Bool :=
  ((List.range 7).flatMap fun dy => (List.range 7).map fun dx =>
      ((dx : ℤ) - 3, (dy : ℤ) - 3)).all
    fun d =>
      let nx := (x : ℤ) + d.1
      let ny := (y : ℤ) + d.2
      if 0 ≤ nx ∧ nx < (w : ℤ) ∧ 0 ≤ ny ∧ ny < (h : ℤ) then
        decide ((g nx.toNat ny.toNat).crystalState ≠ CellType.ALPHA)
      else true

/-- spawnRandomSpecies (lines 1061-1138): pick a random empty land cell
with no Alpha within Chebyshev distance 3, then plant a fresh species
with randomised attributes derived from the human template (survival
band copied unchanged). -/
def spawnRandomSpecies (env : Env) (e : Engine) (r : ℕ) : Engine × ℕ :=
  let p := e.params
  let candidates := (coords e.width e.height).filter fun q =>
    decide ((e.grid q.1 q.2).exists' = true ∧
      (e.grid q.1 q.2).crystalState = CellType.EMPTY) &&
    alphaSafe e.width e.height e.grid q.1 q.2
  if candidates.isEmpty then (e, r)
  else
    let target := pick candidates (0, 0) (env.rng r)
    let speciesId := Int.toNat ⌊env.rng (r + 1) * 100000⌋ + 1
    let color := env.rng (r + 2) * 360
    let attrs : BioAttrs := {
      minTemp := p.humanMinTemp + (env.rng (r + 3) - 0.5) * 20
      maxTemp := p.humanMaxTemp + (env.rng (r + 4) - 0.5) * 20
      survivalMinTemp := p.humanSurvivalMinTemp
      survivalMaxTemp := p.humanSurvivalMaxTemp
      prosperityGrowth := p.humanProsperityGrowth * (0.5 + env.rng (r + 5))
      prosperityDecay := p.humanProsperityDecay * (0.5 + env.rng (r + 6))
      expansionThreshold := p.humanExpansionThreshold * (0.5 + env.rng (r + 7))
      miningReward := p.humanMiningReward * (0.5 + env.rng (r + 8))
      migrationThreshold := p.humanMigrationThreshold * (0.5 + env.rng (r + 9))
      alphaRadiationDamage := p.alphaRadiationDamage
      speciesId := speciesId
      color := color }
    let cell := e.grid target.1 target.2
    let g2 := updateG e.grid target.1 target.2
      { cell with crystalState := CellType.BIO, prosperity := 50,
                  bioAttributes := some attrs }
    ({ e with grid := g2 }, r + 10)

/-- Bounds-checked cell lookup; models the source's unchecked
this.grid[y][x] access, which throws when y is out of range. -/
def getCellQ (e : Engine) (x y : ℤ) : Option Cell :=
  if 0 ≤ x ∧ x < (e.width : ℤ) ∧ 0 ≤ y ∧ y < (e.height : ℤ) then
    some (e.grid x.toNat y.toNat)
  else none

/-- The human attribute template of spawnBio (lines 1040-1053); the fixed
display colour #FFA500 is modelled by its numeric value. -/
def humanAttrs (p : SimulationParams) : BioAttrs :=
  { minTemp := p.humanMinTemp, maxTemp := p.humanMaxTemp,
    survivalMinTemp := p.humanSurvivalMinTemp,
    survivalMaxTemp := p.humanSurvivalMaxTemp,
    prosperityGrowth := p.humanProsperityGrowth,
    prosperityDecay := p.humanProsperityDecay,
    expansionThreshold := p.humanExpansionThreshold,
    miningReward := p.humanMiningReward,
    migrationThreshold := p.humanMigrationThreshold,
    alphaRadiationDamage := p.alphaRadiationDamage,
    speciesId := 0, color := 16753920 }

/-- spawnBio (lines 993-1055): force-spawn at the configured human spawn
point if present (the unchecked grid access there is the engine's only
possible exception, modelled by getCellQ), otherwise pick a random empty
land cell in the human comfort band; returns none exactly where the
source throws. -/
def spawnBio (env : Env) (e : Engine) (prosperity : ℚ) (r : ℕ) :
    Option (Engine × ℕ) :=
  let p := e.params
  let picked : (ℤ × ℤ) × ℕ :=
    match p.humanSpawnPoint with
    | some pt => ((pt.1, pt.2), r)
    | none =>
      let candidates := (coords e.width e.height).filter fun (q : ℕ × ℕ) =>
        decide ((e.grid q.1 q.2).exists' = true ∧
          (e.grid q.1 q.2).crystalState = CellType.EMPTY ∧
          (e.grid q.1 q.2).temperature ≥ p.humanMinTemp ∧
          (e.grid q.1 q.2).temperature ≤ p.humanMaxTemp)
      if candidates.isEmpty then (((-1 : ℤ), (-1 : ℤ)), r)
      else
        let t := pick candidates (0, 0) (env.rng r)
        (((t.1 : ℤ), (t.2 : ℤ)), r + 1)
  let target := picked.1
  let r := picked.2
  let canSpawn :=
    match p.humanSpawnPoint with
    | some _ => true
    | none => decide (target.1 ≠ -1) &&
        decide ((e.grid target.1.toNat target.2.toNat).crystalState = CellType.EMPTY)
  if canSpawn && decide (target.1 ≠ -1) then
    (getCellQ e target.1 target.2).map fun cell =>
      let newCell : Cell :=
        { cell with
          crystalState := CellType.BIO
          prosperity := prosperity
          storedEnergy := 0
          isMining := false
          bioAttributes := some (humanAttrs p) }
      ({ e with grid := updateG e.grid target.1.toNat target.2.toNat newCell }, r)
  else some (e, r)

/-- The distinct-species census of updateBioLayer (lines 759-771),
collecting speciesIds of settlements in sweep order. -/
def bioSpeciesList (e : Engine) : List ℕ :=
  (coords e.width e.height).foldl
    (fun (acc : List ℕ) q =>
      match (e.grid q.1 q.2).crystalState, (e.grid q.1 q.2).bioAttributes with
      | CellType.BIO, some attrs =>
        if attrs.speciesId ∈ acc then acc else acc ++ [attrs.speciesId]
      | _, _ => acc)
    []

/-- The human census of updateBioLayer (lines 761-771). -/
def bioHumanExists (e : Engine) : Bool :=
  (coords e.width e.height).any fun q =>
    match (e.grid q.1 q.2).crystalState, (e.grid q.1 q.2).bioAttributes with
    | CellType.BIO, some attrs => attrs.speciesId = 0
    | _, _ => false

/-- The scheduled random-species spawn of updateBioLayer (lines 773-778),
with the falsy defaults of the source. -/
def bioAutoSpawned (env : Env) (e : Engine) (r : ℕ) : Engine × ℕ :=
  let autoSpawnCount :=
    if e.params.bioAutoSpawnCount = 0 then 5 else e.params.bioAutoSpawnCount
  let autoSpawnInterval :=
    if e.params.bioAutoSpawnInterval = 0 then 10 else e.params.bioAutoSpawnInterval
  if (bioSpeciesList e).length < autoSpawnCount ∧
      e.timeStep % autoSpawnInterval = 0 then
    spawnRandomSpecies env e r
  else (e, r)

/-- The human-lifecycle phase of updateBioLayer (lines 780-802) followed
by the per-settlement sweep and commit. -/
def bioHumanPhase (env : Env) (humanExists : Bool) (e : Engine) (r : ℕ) :
    Option (Engine × ℕ) :=
  if humanExists then
    let e := { e with bioExtinctionStep := none, isFirstSpawn := false }
    some (bioSweepAndCommit env e r)
  else if e.isFirstSpawn then
    if e.timeStep ≥ 50 then
      match spawnBio env e 100 r with
      | none => none
      | some er =>
        let e2 := { er.1 with isFirstSpawn := false }
        some (bioSweepAndCommit env e2 er.2)
    else some (bioSweepAndCommit env e r)
  else
    let step := e.bioExtinctionStep.getD e.timeStep
    let e := { e with bioExtinctionStep := some step }
    let respawnDelay :=
      if e.params.humanRespawnDelay = 0 then 20 else e.params.humanRespawnDelay
    if e.timeStep - step ≥ respawnDelay then
      match spawnBio env e 100 r with
      | none => none
      | some er =>
        let e2 := { er.1 with bioExtinctionStep := none }
        some (bioSweepAndCommit env e2 er.2)
    else some (bioSweepAndCommit env e r)

/-- updateBioLayer (lines 741-975): census, scheduled spawns (the unused
bioCount loop of lines 746-754 is omitted), the human lifecycle, then the
per-settlement sweep and commit. -/
def updateBioLayer (env : Env) (e : Engine) (r : ℕ) : Option (Engine × ℕ) :=
  let humanExists := bioHumanExists e
  let auto := bioAutoSpawned env e r
  bioHumanPhase env humanExists auto.1 auto.2

/-- tick (method update, lines 336-346): advance the step and cycle
counters, then run the four layer updaters in order.  Returns none
exactly where the source throws (the spawnBio unchecked access). -/
def tick (env : Env) (e : Engine) (r : ℕ) : Option (Engine × ℕ) :=
  let ts := e.timeStep + 1
  let e := { e with
    timeStep := ts
    cycleCount := if ts % 1000 = 0 then e.cycleCount + 1 else e.cycleCount }
  let m := updateMantleLayer env e r
  let c := updateClimateLayer env m.1 m.2
  let k := updateCrystalLayer env c.1 c.2
  updateBioLayer env k.1 k.2

/-! ### Definitions modelled from the specification text

These are written from the spec's sentences, to be compared with the
definitions above that are translated from the source. -/

/-- Spec-modelled edge-supply eligibility (the spec's radial band): the
cell's Euclidean distance from the centre lies in
[maxRadius - edgeGenerationOffset - edgeGenerationWidth,
 maxRadius - edgeGenerationOffset]. -/
def specEdgeEligible (e : Engine) (x y : ℕ) : Bool :=
  let d2 := distSq e.width e.height x y
  let outer := e.params.maxRadius - e.params.edgeGenerationOffset
  let inner := outer - e.params.edgeGenerationWidth
  !(sqrtLt d2 inner) && !(sqrtGt d2 outer)

/-- Spec-modelled Phase A energy: the base update, the edge supply gated
on the spec's radial band, then the Alpha draw. -/
def specMantleNewEnergy (env : Env) (e : Engine) (x y : ℕ) : ℚ :=
  let e1 := mantleBaseEnergy env e x y
  let e2 :=
    if specEdgeEligible e x y then
      let infl := maxInfluence env e x y
      if infl > 0 then e1 + e.params.edgeGenerationEnergy * infl else e1
    else e1
  if (e.grid x y).crystalState = CellType.ALPHA then
    e2 - e2 * e.params.mantleAbsorption
  else e2

/-- Amended-spec edge supply: the term the code actually adds, gated on
the void-neighbour test instead of the spec's radial band. -/
def specEdgeSupplyAmended (env : Env) (e : Engine) (x y : ℕ) : ℚ :=
  if hasVoidNeighbor e x y = true then
    e.params.edgeGenerationEnergy * maxInfluence env e x y
  else 0

/-- Spec-modelled thunderstorm trigger: temperature floor -50, gradient
above the threshold, and a 0.15 probability draw. -/
def specStormTrigger (p : SimulationParams) (temp diff draw : ℚ) : Bool :=
  decide (temp > -50) && decide (diff > p.thunderstormThreshold) &&
    decide (draw < 0.15)

/-- The claimed stored-energy range, restricted to Alpha cells. -/
def AlphaInRange (p : SimulationParams) (g : Grid) : Prop :=
  ∀ x y : ℕ, (g x y).crystalState = CellType.ALPHA →
    0 ≤ (g x y).storedEnergy ∧ (g x y).storedEnergy ≤ p.maxCrystalEnergy

/-! ### Generic helper lemmas -/

theorem foldl_preserve {α σ : Type _} {P : σ → Prop} {f : σ → α → σ} :
    ∀ (l : List α) (s : σ), P s → (∀ s a, a ∈ l → P s → P (f s a)) →
      P (l.foldl f s)
  | [], _, hs, _ => hs
  | a :: l, s, hs, h =>
    foldl_preserve l (f s a) (h s a (List.mem_cons_self a l) hs)
      (fun s b hb => h s b (List.mem_cons_of_mem _ hb))

theorem eq_some_getD {α : Type} (o : Option α) (d : α)
    (h : o.isSome = true) : o = some (o.getD d) := by
  cases o
  · exact Bool.noConfusion h
  · rfl

theorem pick_mem {α : Type} (l : List α) (d : α) (rv : ℚ) (h : l ≠ []) :
    pick l d rv ∈ l := by
  have hl : 0 < l.length := List.length_pos.2 h
  have hidx : min (Int.toNat ⌊rv * l.length⌋) (l.length - 1) < l.length := by
    have : l.length - 1 < l.length := Nat.sub_lt hl (by decide)
    exact Nat.lt_of_le_of_lt (Nat.min_le_right _ _) this
  rw [pick, List.getD_eq_getElem l d hidx]
  exact List.getElem_mem hidx

theorem mem_getNeighbors_exists {g : Grid} {w h x y : ℕ} {q : ℕ × ℕ}
    (hq : q ∈ getNeighbors g w h x y false) : (g q.1 q.2).exists' = true := by
  have := List.of_mem_filter hq
  simpa using this

theorem updateG_exists (g : Grid) (x y : ℕ) (c : Cell)
    (hc : c.exists' = (g x y).exists') (a b : ℕ) :
    (updateG g x y c a b).exists' = (g a b).exists' := by
  by_cases hab : a = x ∧ b = y
  · obtain ⟨rfl, rfl⟩ := hab
    rw [updateG_same, hc]
  · rw [updateG_other _ _ _ _ _ _ hab]

/-! ### Mantle layer lemmas -/

/-- The data-model invariant of §3/§8 restricted to what the code
maintains: a void cell has zero mantle energy and an EMPTY crystal slot. -/
def VoidClean (g : Grid) : Prop :=
  ∀ x y : ℕ, (g x y).exists' = false →
    (g x y).mantleEnergy = 0 ∧ (g x y).crystalState = CellType.EMPTY

theorem mantleShrinkArm_fields (p : SimulationParams) (x y : ℕ) (d2 : ℚ)
    (c : Cell) :
    ((mantleShrinkArm p x y d2 c).1.exists' = c.exists') ∧
    ((mantleShrinkArm p x y d2 c).1.mantleEnergy = c.mantleEnergy) ∧
    ((mantleShrinkArm p x y d2 c).1.crystalState = c.crystalState) := by
  unfold mantleShrinkArm
  dsimp only
  repeat' split
  all_goals exact ⟨rfl, rfl, rfl⟩

theorem mantleShrinkArm_changes (p : SimulationParams) (x y : ℕ) (d2 : ℚ)
    (c : Cell) (tc : TerrainChange) (h : tc ∈ (mantleShrinkArm p x y d2 c).2) :
    tc = ⟨x, y, TerrainAction.shrink⟩ ∧ sqrtGt d2 p.minRadius = true := by
  unfold mantleShrinkArm at h
  dsimp only at h
  repeat' split at h
  all_goals simp_all

theorem mantleExpandArm_fields (env : Env) (p : SimulationParams)
    (w h x y : ℕ) (g : Grid) (d2 : ℚ) (c : Cell) (r : ℕ) :
    ((mantleExpandArm env p w h x y g d2 c r).1.exists' = c.exists') ∧
    ((mantleExpandArm env p w h x y g d2 c r).1.crystalState = c.crystalState) := by
  unfold mantleExpandArm
  dsimp only
  repeat' split
  all_goals exact ⟨rfl, rfl⟩

theorem mantleExpandArm_changes (env : Env) (p : SimulationParams)
    (w h x y : ℕ) (g : Grid) (d2 : ℚ) (c : Cell) (r : ℕ) (tc : TerrainChange)
    (htc : tc ∈ (mantleExpandArm env p w h x y g d2 c r).2.1) :
    tc.action = TerrainAction.expand := by
  unfold mantleExpandArm at htc
  dsimp only at htc
  repeat' split at htc
  all_goals simp_all

theorem mantlePhaseBStep_grid_exists (env : Env) (e : Engine)
    (st : Grid × List TerrainChange × ℕ) (q : ℕ × ℕ) (a b : ℕ) :
    ((mantlePhaseBStep env e st q).1 a b).exists' = (st.1 a b).exists' := by
  unfold mantlePhaseBStep
  dsimp only
  split
  · rfl
  · refine updateG_exists _ _ _ _ ?_ a b
    rw [(mantleExpandArm_fields ..).1, (mantleShrinkArm_fields ..).1]

theorem voidClean_updateG {g : Grid} (hv : VoidClean g) (x y : ℕ) (c : Cell)
    (hc : c.exists' = false →
      c.mantleEnergy = 0 ∧ c.crystalState = CellType.EMPTY) :
    VoidClean (updateG g x y c) := by
  intro a b hab
  by_cases h : a = x ∧ b = y
  · obtain ⟨rfl, rfl⟩ := h
    rw [updateG_same] at hab ⊢
    exact hc hab
  · rw [updateG_other _ _ _ _ _ _ h] at hab ⊢
    exact hv a b hab

theorem mantlePhaseBStep_voidClean (env : Env) (e : Engine)
    (st : Grid × List TerrainChange × ℕ) (q : ℕ × ℕ) (hv : VoidClean st.1) :
    VoidClean (mantlePhaseBStep env e st q).1 := by
  unfold mantlePhaseBStep
  dsimp only
  split
  · exact hv
  · rename_i hcell
    apply voidClean_updateG hv
    intro hfalse
    rw [(mantleExpandArm_fields ..).1, (mantleShrinkArm_fields ..).1] at hfalse
    simp only [Bool.not_eq_true'] at hcell
    simp only [Bool.not_eq_false] at hcell
    rw [hcell] at hfalse
    cases hfalse

theorem applyTerrainChange_voidClean (g : Grid) (c : TerrainChange)
    (hv : VoidClean g) : VoidClean (applyTerrainChange g c) := by
  obtain ⟨cx, cy, ca⟩ := c
  cases ca
  · apply voidClean_updateG hv
    intro h
    cases h
  · apply voidClean_updateG hv
    intro _
    exact ⟨rfl, rfl⟩

theorem mantleStaged_exists (env : Env) (e : Engine) (x y : ℕ) :
    ((mantleStaged env e).grid x y).exists' = (e.grid x y).exists' := by
  unfold mantleStaged
  dsimp only
  split <;> rfl

theorem mantleStaged_voidClean (env : Env) (e : Engine)
    (hv : VoidClean e.grid) : VoidClean (mantleStaged env e).grid := by
  intro a b hab
  rw [mantleStaged_exists] at hab
  have hne : ¬((mantleAdvanced env e).grid a b).exists' = true := by
    intro hcon
    have hcon' : (e.grid a b).exists' = true := hcon
    rw [hab] at hcon'
    cases hcon'
  unfold mantleStaged
  dsimp only
  rw [if_neg hne]
  exact hv a b hab

theorem updateMantleLayer_voidClean (env : Env) (e : Engine) (r : ℕ)
    (hv : VoidClean e.grid) : VoidClean (updateMantleLayer env e r).1.grid := by
  unfold updateMantleLayer
  dsimp only
  apply foldl_preserve (P := fun g : Grid => VoidClean g)
  · apply foldl_preserve
      (P := fun st : Grid × List TerrainChange × ℕ => VoidClean st.1)
    · exact mantleStaged_voidClean env e hv
    · intro st q _ hst
      exact mantlePhaseBStep_voidClean env _ st q hst
  · intro g c _ hg
    exact applyTerrainChange_voidClean g c hg

theorem mantlePhaseBStep_changes (env : Env) (e : Engine)
    (st : Grid × List TerrainChange × ℕ) (q : ℕ × ℕ) (tc : TerrainChange)
    (htc : tc ∈ (mantlePhaseBStep env e st q).2.1) :
    tc ∈ st.2.1 ∨ tc.action = TerrainAction.expand ∨
      (tc.action = TerrainAction.shrink ∧
        sqrtGt (distSq e.width e.height tc.x tc.y) e.params.minRadius = true) := by
  unfold mantlePhaseBStep at htc
  dsimp only at htc
  split at htc
  · exact Or.inl htc
  · simp only [List.append_assoc, List.mem_append] at htc
    rcases htc with htc | htc | htc
    · exact Or.inl htc
    · obtain ⟨rfl, hgt⟩ := mantleShrinkArm_changes _ _ _ _ _ tc htc
      exact Or.inr (Or.inr ⟨rfl, hgt⟩)
    · exact Or.inr (Or.inl (mantleExpandArm_changes _ _ _ _ _ _ _ _ _ _ tc htc))

theorem updateMantleLayer_protected (env : Env) (e : Engine) (r : ℕ) (x y : ℕ)
    (hex : (e.grid x y).exists' = true)
    (hr : sqrtGt (distSq e.width e.height x y) e.params.minRadius = false) :
    ((updateMantleLayer env e r).1.grid x y).exists' = true := by
  unfold updateMantleLayer
  dsimp only
  have hswept := foldl_preserve
    (P := fun st : Grid × List TerrainChange × ℕ =>
      (st.1 x y).exists' = true ∧
        ∀ tc ∈ st.2.1, tc.action = TerrainAction.shrink →
          sqrtGt (distSq e.width e.height tc.x tc.y) e.params.minRadius = true)
    (coords (mantleStaged env e).width (mantleStaged env e).height)
    ((mantleStaged env e).grid, ([] : List TerrainChange), r)
    (⟨by rw [mantleStaged_exists]; exact hex,
      by intro tc htc; cases htc⟩)
    (by
      intro st q _ hst
      constructor
      · rw [mantlePhaseBStep_grid_exists]
        exact hst.1
      · intro tc htc hsh
        rcases mantlePhaseBStep_changes env _ st q tc htc with h | h | h
        · exact hst.2 tc h hsh
        · rw [h] at hsh
          cases hsh
        · exact h.2)
  apply foldl_preserve
    (P := fun g : Grid => (g x y).exists' = true)
    _ _ hswept.1
  intro g tc htc hg
  obtain ⟨cx, cy, ca⟩ := tc
  by_cases hxy : cx = x ∧ cy = y
  · obtain ⟨rfl, rfl⟩ := hxy
    cases ca
    · unfold applyTerrainChange
      dsimp only
      rw [updateG_same]
    · have := hswept.2 _ htc rfl
      dsimp only at this
      rw [this] at hr
      cases hr
  · cases ca
    all_goals
      unfold applyTerrainChange
      dsimp only
      rw [updateG_other g cx cy x y _
        (fun hc => hxy ⟨hc.1.symm, hc.2.symm⟩)]
      exact hg

/-! ### Climate layer lemmas -/

/-- Pointwise equality of the three geosphere-invariant fields. -/
def GeoEq (g g' : Grid) : Prop :=
  ∀ a b : ℕ, (g' a b).exists' = (g a b).exists' ∧
    (g' a b).mantleEnergy = (g a b).mantleEnergy ∧
    (g' a b).crystalState = (g a b).crystalState

theorem geoEq_refl (g : Grid) : GeoEq g g := fun _ _ => ⟨rfl, rfl, rfl⟩

theorem geoEq_trans {g1 g2 g3 : Grid} (h12 : GeoEq g1 g2) (h23 : GeoEq g2 g3) :
    GeoEq g1 g3 := by
  intro a b
  obtain ⟨x1, x2, x3⟩ := h12 a b
  obtain ⟨y1, y2, y3⟩ := h23 a b
  exact ⟨y1.trans x1, y2.trans x2, y3.trans x3⟩

theorem voidClean_of_geoEq {g g' : Grid} (hg : GeoEq g g') (hv : VoidClean g) :
    VoidClean g' := by
  intro a b hab
  obtain ⟨h1, h2, h3⟩ := hg a b
  rw [h1] at hab
  rw [h2, h3]
  exact hv a b hab

theorem updateG_geo (g : Grid) (x y : ℕ) (c : Cell)
    (h1 : c.exists' = (g x y).exists')
    (h2 : c.mantleEnergy = (g x y).mantleEnergy)
    (h3 : c.crystalState = (g x y).crystalState) :
    GeoEq g (updateG g x y c) := by
  intro a b
  by_cases hab : a = x ∧ b = y
  · obtain ⟨rfl, rfl⟩ := hab
    rw [updateG_same]
    exact ⟨h1, h2, h3⟩
  · rw [updateG_other _ _ _ _ _ _ hab]
    exact ⟨rfl, rfl, rfl⟩

theorem climateCellStep_geo (env : Env) (p : SimulationParams) (w h : ℕ)
    (st : Grid × (ℕ → ℕ → ℚ) × ℕ) (q : ℕ × ℕ) :
    GeoEq st.1 (climateCellStep env p w h st q).1 := by
  unfold climateCellStep
  dsimp only
  repeat' split
  all_goals first
    | exact geoEq_refl _
    | exact updateG_geo _ _ _ _ rfl rfl rfl

theorem updateClimateLayer_geo (env : Env) (e : Engine) (r : ℕ) :
    GeoEq e.grid (updateClimateLayer env e r).1.grid := by
  unfold updateClimateLayer
  dsimp only
  refine geoEq_trans
    (foldl_preserve
      (P := fun st : Grid × (ℕ → ℕ → ℚ) × ℕ => GeoEq e.grid st.1)
      (f := climateCellStep env e.params e.width e.height)
      (coords e.width e.height)
      (e.grid, (fun x y => (e.grid x y).temperature), r) (geoEq_refl _)
      (fun st q _ hst => geoEq_trans hst (climateCellStep_geo env _ _ _ st q)))
    ?_
  intro a b
  dsimp only
  split
  all_goals exact ⟨rfl, rfl, rfl⟩

/-! ### Crystal layer lemmas -/

/-- Pointwise equality of the exists and mantle-energy fields. -/
def EMEq (g g' : Grid) : Prop :=
  ∀ a b : ℕ, (g' a b).exists' = (g a b).exists' ∧
    (g' a b).mantleEnergy = (g a b).mantleEnergy

theorem emEq_refl (g : Grid) : EMEq g g := fun _ _ => ⟨rfl, rfl⟩

theorem emEq_trans {g1 g2 g3 : Grid} (h12 : EMEq g1 g2) (h23 : EMEq g2 g3) :
    EMEq g1 g3 := by
  intro a b
  obtain ⟨x1, x2⟩ := h12 a b
  obtain ⟨y1, y2⟩ := h23 a b
  exact ⟨y1.trans x1, y2.trans x2⟩

theorem emEq_of_geoEq {g g' : Grid} (h : GeoEq g g') : EMEq g g' :=
  fun a b => ⟨(h a b).1, (h a b).2.1⟩

theorem metabolismCell_fields (p : SimulationParams) (c : Cell) :
    ((metabolismCell p c).exists' = c.exists') ∧
    ((metabolismCell p c).mantleEnergy = c.mantleEnergy) := by
  unfold metabolismCell
  dsimp only
  repeat' split
  all_goals exact ⟨rfl, rfl⟩

theorem crystalMetabolism_em (p : SimulationParams) (g : Grid) :
    EMEq g (crystalMetabolism p g) := by
  intro a b
  unfold crystalMetabolism
  dsimp only
  split
  · exact ⟨(metabolismCell_fields p _).1, (metabolismCell_fields p _).2⟩
  · exact ⟨rfl, rfl⟩

theorem crystalMetabolism_voidClean (p : SimulationParams) (g : Grid)
    (hv : VoidClean g) : VoidClean (crystalMetabolism p g) := by
  intro a b hab
  rw [(crystalMetabolism_em p g a b).1] at hab
  have hne : ¬((g a b).exists' = true ∧ (g a b).crystalState ≠ CellType.EMPTY ∧
      (g a b).crystalState ≠ CellType.BIO) := by
    intro hcon
    rw [hab] at hcon
    exact absurd hcon.1 (by simp)
  unfold crystalMetabolism
  dsimp only
  rw [if_neg hne]
  exact hv a b hab

theorem crystalFlowStep_geo (p : SimulationParams) (w h : ℕ)
    (st : Grid × (ℕ → ℕ → ℚ)) (q : ℕ × ℕ) :
    GeoEq st.1 (crystalFlowStep p w h st q).1 := by
  unfold crystalFlowStep
  dsimp only
  split
  · apply foldl_preserve
      (P := fun st' : Grid × (ℕ → ℕ → ℚ) => GeoEq st.1 st'.1)
    · exact geoEq_refl _
    · intro st' nq _ hst'
      dsimp only
      repeat' split
      all_goals first
        | exact hst'
        | exact geoEq_trans hst' (updateG_geo _ _ _ _ rfl rfl rfl)
  · exact geoEq_refl _

theorem crystalFlowCommit_geo (p : SimulationParams) (g : Grid)
    (delta : ℕ → ℕ → ℚ) : GeoEq g (crystalFlowCommit p g delta) := by
  intro a b
  unfold crystalFlowCommit
  dsimp only
  split
  all_goals exact ⟨rfl, rfl, rfl⟩

theorem crystalExpandStep_geo (env : Env) (p : SimulationParams) (w h : ℕ)
    (st : Grid × List CrystalChange × ℕ) (q : ℕ × ℕ) :
    GeoEq st.1 (crystalExpandStep env p w h st q).1 := by
  unfold crystalExpandStep
  dsimp only
  repeat' split
  all_goals first
    | exact geoEq_refl _
    | exact updateG_geo _ _ _ _ rfl rfl rfl

theorem crystalExpandStep_changes (env : Env) (p : SimulationParams)
    (w h : ℕ) (st : Grid × List CrystalChange × ℕ) (q : ℕ × ℕ)
    (tc : CrystalChange) (htc : tc ∈ (crystalExpandStep env p w h st q).2.1) :
    tc ∈ st.2.1 ∨ (st.1 tc.x tc.y).exists' = true := by
  unfold crystalExpandStep at htc
  dsimp only at htc
  split at htc
  · split at htc
    · exact Or.inl htc
    · rename_i hne
      rw [List.mem_append] at htc
      rcases htc with htc | htc
      · exact Or.inl htc
      · rw [List.mem_singleton] at htc
        subst htc
        right
        have hne' : (getNeighbors st.1 w h q.1 q.2 false).filter
            (fun q => decide ((st.1 q.1 q.2).exists' = true ∧
              (st.1 q.1 q.2).crystalState = CellType.EMPTY)) ≠ [] := by
          intro hnil
          rw [hnil] at hne
          exact hne rfl
        have hmem := pick_mem _ ((0 : ℕ), (0 : ℕ)) (env.rng st.2.2) hne'
        have := List.of_mem_filter hmem
        dsimp only
        simp only [decide_eq_true_eq] at this
        exact this.1
  · exact Or.inl htc

theorem applyCrystalChange_em (g : Grid) (c : CrystalChange) :
    EMEq g (applyCrystalChange g c) := by
  unfold applyCrystalChange
  dsimp only
  split
  · intro a b
    by_cases hab : a = c.x ∧ b = c.y
    · obtain ⟨rfl, rfl⟩ := hab
      rw [updateG_same]
      exact ⟨rfl, rfl⟩
    · rw [updateG_other _ _ _ _ _ _ hab]
      exact ⟨rfl, rfl⟩
  · exact emEq_refl g

theorem applyCrystalChange_voidClean (g : Grid) (c : CrystalChange)
    (hv : VoidClean g) (hex : (g c.x c.y).exists' = true) :
    VoidClean (applyCrystalChange g c) := by
  unfold applyCrystalChange
  dsimp only
  split
  · apply voidClean_updateG hv
    intro hfalse
    have hfx : (g c.x c.y).exists' = false := hfalse
    rw [hex] at hfx
    cases hfx
  · exact hv

theorem crystalCleared_geo (g : Grid) : GeoEq g (crystalCleared g) :=
  fun _ _ => ⟨rfl, rfl, rfl⟩

theorem crystalFlowed_geo (p : SimulationParams) (w h : ℕ) (g : Grid) :
    GeoEq g (crystalFlowed p w h g).1 :=
  foldl_preserve
    (P := fun st : Grid × (ℕ → ℕ → ℚ) => GeoEq g st.1)
    (f := crystalFlowStep p w h)
    (coords w h) (g, fun _ _ => (0 : ℚ)) (geoEq_refl _)
    (fun st q _ hst => geoEq_trans hst (crystalFlowStep_geo _ _ _ st q))

theorem crystalExpanded_inv (env : Env) (p : SimulationParams) (w h : ℕ)
    (g : Grid) (r : ℕ) :
    GeoEq g (crystalExpanded env p w h g r).1 ∧
      ∀ c ∈ (crystalExpanded env p w h g r).2.1,
        ((crystalExpanded env p w h g r).1 c.x c.y).exists' = true := by
  have main := foldl_preserve
    (P := fun st : Grid × List CrystalChange × ℕ =>
      GeoEq g st.1 ∧ ∀ c ∈ st.2.1, (st.1 c.x c.y).exists' = true)
    (f := crystalExpandStep env p w h)
    (coords w h) (g, ([] : List CrystalChange), r)
    (⟨geoEq_refl _, fun c hc => absurd hc (List.not_mem_nil c)⟩)
    (by
      intro st q _ hst
      constructor
      · exact geoEq_trans hst.1 (crystalExpandStep_geo env _ _ _ st q)
      · intro c hc
        rw [(crystalExpandStep_geo env _ _ _ st q c.x c.y).1]
        rcases crystalExpandStep_changes env _ _ _ st q c hc with h | h
        · exact hst.2 c h
        · exact h)
  exact main

theorem updateCrystalLayer_em (env : Env) (e : Engine) (r : ℕ) :
    EMEq e.grid (updateCrystalLayer env e r).1.grid := by
  unfold updateCrystalLayer
  dsimp only
  refine emEq_trans (crystalMetabolism_em e.params e.grid) ?_
  refine emEq_trans (emEq_of_geoEq (crystalCleared_geo
    (crystalMetabolism e.params e.grid))) ?_
  refine emEq_trans (emEq_of_geoEq (crystalFlowed_geo e.params e.width e.height
    (crystalCleared (crystalMetabolism e.params e.grid)))) ?_
  refine emEq_trans (emEq_of_geoEq (crystalFlowCommit_geo e.params
    (crystalFlowed e.params e.width e.height
      (crystalCleared (crystalMetabolism e.params e.grid))).1
    (crystalFlowed e.params e.width e.height
      (crystalCleared (crystalMetabolism e.params e.grid))).2)) ?_
  refine emEq_trans (emEq_of_geoEq
    (crystalExpanded_inv env e.params e.width e.height
      (crystalFlowCommit e.params
        (crystalFlowed e.params e.width e.height
          (crystalCleared (crystalMetabolism e.params e.grid))).1
        (crystalFlowed e.params e.width e.height
          (crystalCleared (crystalMetabolism e.params e.grid))).2) r).1) ?_
  apply foldl_preserve
    (P := fun g : Grid => EMEq (crystalExpanded env e.params e.width e.height
      (crystalFlowCommit e.params
        (crystalFlowed e.params e.width e.height
          (crystalCleared (crystalMetabolism e.params e.grid))).1
        (crystalFlowed e.params e.width e.height
          (crystalCleared (crystalMetabolism e.params e.grid))).2) r).1 g)
  · exact emEq_refl _
  · intro g c _ hg
    exact emEq_trans hg (applyCrystalChange_em g c)

theorem updateCrystalLayer_voidClean (env : Env) (e : Engine) (r : ℕ)
    (hv : VoidClean e.grid) : VoidClean (updateCrystalLayer env e r).1.grid := by
  unfold updateCrystalLayer
  dsimp only
  have h4 : VoidClean (crystalFlowCommit e.params
      (crystalFlowed e.params e.width e.height
        (crystalCleared (crystalMetabolism e.params e.grid))).1
      (crystalFlowed e.params e.width e.height
        (crystalCleared (crystalMetabolism e.params e.grid))).2) :=
    voidClean_of_geoEq (crystalFlowCommit_geo _ _ _)
      (voidClean_of_geoEq (crystalFlowed_geo _ _ _ _)
        (voidClean_of_geoEq (crystalCleared_geo _)
          (crystalMetabolism_voidClean e.params e.grid hv)))
  obtain ⟨hgeo, htargets⟩ := crystalExpanded_inv env e.params e.width e.height
    (crystalFlowCommit e.params
      (crystalFlowed e.params e.width e.height
        (crystalCleared (crystalMetabolism e.params e.grid))).1
      (crystalFlowed e.params e.width e.height
        (crystalCleared (crystalMetabolism e.params e.grid))).2) r
  apply (foldl_preserve
    (P := fun g : Grid =>
      VoidClean g ∧ ∀ c ∈ (crystalExpanded env e.params e.width e.height
        (crystalFlowCommit e.params
          (crystalFlowed e.params e.width e.height
            (crystalCleared (crystalMetabolism e.params e.grid))).1
          (crystalFlowed e.params e.width e.height
            (crystalCleared (crystalMetabolism e.params e.grid))).2) r).2.1,
        (g c.x c.y).exists' = true)
    _ _ ⟨voidClean_of_geoEq hgeo h4, htargets⟩ ?_).1
  intro g c hc hg
  constructor
  · exact applyCrystalChange_voidClean g c hg.1 (hg.2 c hc)
  · intro c' hc'
    rw [(applyCrystalChange_em g c c'.x c'.y).1]
    exact hg.2 c' hc'

/-! ### Bio layer lemmas -/

theorem distributeExtinctionBonus_geo (w h : ℕ) (g : Grid) (x y : ℕ)
    (bonus : ℚ) : GeoEq g (distributeExtinctionBonus w h g x y bonus) := by
  unfold distributeExtinctionBonus
  dsimp only
  split
  · exact geoEq_refl g
  · apply foldl_preserve (P := fun g' : Grid => GeoEq g g')
    · exact geoEq_refl g
    · intro g' q _ hg'
      dsimp only
      repeat' split
      all_goals first
        | exact hg'
        | exact geoEq_trans hg' (updateG_geo _ _ _ _ rfl rfl rfl)

theorem bioCellGrid_geo (p : SimulationParams) (w h : ℕ) (g : Grid)
    (x y : ℕ) : GeoEq g (bioCellGrid p w h g x y) := by
  unfold bioCellGrid
  split
  · exact geoEq_refl g
  · repeat' split
    all_goals first
      | exact geoEq_refl _
      | exact distributeExtinctionBonus_geo _ _ _ _ _ _

theorem bioCellStep_geo (env : Env) (p : SimulationParams) (w h : ℕ)
    (st : Grid × List BioChange × ℕ) (q : ℕ × ℕ) :
    GeoEq st.1 (bioCellStep env p w h st q).1 :=
  bioCellGrid_geo p w h st.1 q.1 q.2

theorem bioMigrationTarget_mem (g : Grid) (mid : ℚ) (l : List (ℕ × ℕ))
    (h : l ≠ []) : bioMigrationTarget g mid l ∈ l := by
  match l with
  | [] => exact absurd rfl h
  | first :: rest =>
    apply foldl_preserve (P := fun q : ℕ × ℕ => q ∈ first :: rest)
    · exact List.mem_cons_self first rest
    · intro s a ha hs
      dsimp only
      split
      · exact ha
      · exact hs

theorem pick_empty_land (g : Grid) (l : List (ℕ × ℕ)) (rv : ℚ)
    (hne : ¬((l.filter fun q => decide ((g q.1 q.2).exists' = true ∧
      (g q.1 q.2).crystalState = CellType.EMPTY)).isEmpty = true)) :
    (g (pick (l.filter fun q => decide ((g q.1 q.2).exists' = true ∧
        (g q.1 q.2).crystalState = CellType.EMPTY)) (0, 0) rv).1
      (pick (l.filter fun q => decide ((g q.1 q.2).exists' = true ∧
        (g q.1 q.2).crystalState = CellType.EMPTY)) (0, 0) rv).2).exists' =
      true := by
  have hmem := pick_mem
    (l.filter fun q => decide ((g q.1 q.2).exists' = true ∧
      (g q.1 q.2).crystalState = CellType.EMPTY)) ((0 : ℕ), (0 : ℕ)) rv
    (by intro hnil; rw [hnil] at hne; exact hne rfl)
  have := List.of_mem_filter hmem
  simp only [decide_eq_true_eq] at this
  exact this.1

theorem migrationTarget_land (g : Grid) (mid : ℚ) (l : List (ℕ × ℕ))
    (hne : ¬((l.filter fun q => decide ((g q.1 q.2).exists' = true ∧
      (g q.1 q.2).crystalState = CellType.EMPTY)).isEmpty = true)) :
    (g (bioMigrationTarget g mid (l.filter fun q =>
        decide ((g q.1 q.2).exists' = true ∧
          (g q.1 q.2).crystalState = CellType.EMPTY))).1
      (bioMigrationTarget g mid (l.filter fun q =>
        decide ((g q.1 q.2).exists' = true ∧
          (g q.1 q.2).crystalState = CellType.EMPTY))).2).exists' = true := by
  have hmem := bioMigrationTarget_mem g mid
    (l.filter fun q => decide ((g q.1 q.2).exists' = true ∧
      (g q.1 q.2).crystalState = CellType.EMPTY))
    (by intro hnil; rw [hnil] at hne; exact hne rfl)
  have := List.of_mem_filter hmem
  simp only [decide_eq_true_eq] at this
  exact this.1

theorem bioCellChanges_targets (env : Env) (p : SimulationParams) (w h : ℕ)
    (g : Grid) (x y : ℕ) (r : ℕ) (c : BioChange)
    (hc : c ∈ (bioCellChanges env p w h g x y r).1) :
    match c with
    | BioChange.newBio tx ty _ _ => (g tx ty).exists' = true
    | BioChange.migrate tx ty _ _ => (g tx ty).exists' = true
    | _ => True := by
  unfold bioCellChanges at hc
  split at hc
  · cases hc
  · repeat' first
      | split at hc
      | dsimp only at hc
    all_goals
      simp only [List.append_assoc, List.mem_append, List.mem_singleton,
        List.mem_cons, List.not_mem_nil, or_false, false_or] at hc
    all_goals repeat' (rcases hc with hc | hc)
    all_goals first
      | trivial
      | exact pick_empty_land g _ _ (by assumption)
      | exact migrationTarget_land g _ _ (by assumption)

theorem updateG_em (g : Grid) (x y : ℕ) (c : Cell)
    (h1 : c.exists' = (g x y).exists')
    (h2 : c.mantleEnergy = (g x y).mantleEnergy) :
    EMEq g (updateG g x y c) := by
  intro a b
  by_cases hab : a = x ∧ b = y
  · obtain ⟨rfl, rfl⟩ := hab
    rw [updateG_same]
    exact ⟨h1, h2⟩
  · rw [updateG_other _ _ _ _ _ _ hab]
    exact ⟨rfl, rfl⟩

theorem applyBioChange_em (g : Grid) (c : BioChange) :
    EMEq g (applyBioChange g c) := by
  unfold applyBioChange
  cases c <;> dsimp only
  all_goals try exact updateG_em _ _ _ _ rfl rfl
  all_goals split
  all_goals first
    | exact emEq_refl g
    | exact updateG_em _ _ _ _ rfl rfl

theorem applyBioChange_voidClean (g : Grid) (c : BioChange) (hv : VoidClean g)
    (ht : match c with
      | BioChange.newBio tx ty _ _ => (g tx ty).exists' = true
      | BioChange.migrate tx ty _ _ => (g tx ty).exists' = true
      | _ => True) :
    VoidClean (applyBioChange g c) := by
  unfold applyBioChange
  cases c <;> dsimp only
  case state x y =>
    apply voidClean_updateG hv
    intro hfalse
    exact ⟨(hv x y hfalse).1, rfl⟩
  case prosperity x y v =>
    apply voidClean_updateG hv
    intro hfalse
    exact ⟨(hv x y hfalse).1, (hv x y hfalse).2⟩
  case miningState x y b =>
    apply voidClean_updateG hv
    intro hfalse
    exact ⟨(hv x y hfalse).1, (hv x y hfalse).2⟩
  case newBio x y pros attrs =>
    split
    · apply voidClean_updateG hv
      intro hfalse
      have hfx : (g x y).exists' = false := hfalse
      rw [ht] at hfx
      cases hfx
    · exact hv
  case migrate x y pros attrs =>
    split
    · apply voidClean_updateG hv
      intro hfalse
      have hfx : (g x y).exists' = false := hfalse
      rw [ht] at hfx
      cases hfx
    · exact hv

theorem bioSweepAndCommit_em (env : Env) (e : Engine) (r : ℕ) :
    EMEq e.grid (bioSweepAndCommit env e r).1.grid := by
  unfold bioSweepAndCommit
  dsimp only
  refine emEq_trans (emEq_of_geoEq (foldl_preserve
    (P := fun st : Grid × List BioChange × ℕ => GeoEq e.grid st.1)
    (f := bioCellStep env e.params e.width e.height)
    (coords e.width e.height) (e.grid, ([] : List BioChange), r)
    (geoEq_refl _)
    (fun st q _ hst => geoEq_trans hst (bioCellStep_geo env _ _ _ st q)))) ?_
  apply foldl_preserve
    (P := fun g : Grid => EMEq ((coords e.width e.height).foldl
      (bioCellStep env e.params e.width e.height)
      (e.grid, ([] : List BioChange), r)).1 g)
  · exact emEq_refl _
  · intro g c _ hg
    exact emEq_trans hg (applyBioChange_em g c)

theorem bioSweepAndCommit_voidClean (env : Env) (e : Engine) (r : ℕ)
    (hv : VoidClean e.grid) :
    VoidClean (bioSweepAndCommit env e r).1.grid := by
  unfold bioSweepAndCommit
  dsimp only
  have hsweep := foldl_preserve
    (P := fun st : Grid × List BioChange × ℕ =>
      GeoEq e.grid st.1 ∧ ∀ c ∈ st.2.1,
        (match c with
          | BioChange.newBio tx ty _ _ => (st.1 tx ty).exists' = true
          | BioChange.migrate tx ty _ _ => (st.1 tx ty).exists' = true
          | _ => True))
    (f := bioCellStep env e.params e.width e.height)
    (coords e.width e.height) (e.grid, ([] : List BioChange), r)
    (⟨geoEq_refl _, fun c hc => absurd hc (List.not_mem_nil c)⟩)
    (by
      intro st q _ hst
      refine ⟨geoEq_trans hst.1 (bioCellStep_geo env _ _ _ st q), ?_⟩
      intro c hc
      have hgeo := bioCellStep_geo env e.params e.width e.height st q
      unfold bioCellStep at hc
      dsimp only at hc
      rw [List.mem_append] at hc
      rcases hc with hc | hc
      · have := hst.2 c hc
        cases c <;> try trivial
        all_goals
          dsimp only at this ⊢
          rw [(hgeo _ _).1]
          exact this
      · have := bioCellChanges_targets env e.params e.width e.height st.1
          q.1 q.2 st.2.2 c hc
        cases c <;> try trivial
        all_goals
          dsimp only at this ⊢
          rw [(hgeo _ _).1]
          exact this)
  apply (foldl_preserve
    (P := fun g : Grid =>
      VoidClean g ∧ ∀ c ∈ ((coords e.width e.height).foldl
        (bioCellStep env e.params e.width e.height)
        (e.grid, ([] : List BioChange), r)).2.1,
        (match c with
          | BioChange.newBio tx ty _ _ => (g tx ty).exists' = true
          | BioChange.migrate tx ty _ _ => (g tx ty).exists' = true
          | _ => True))
    _ _ ⟨voidClean_of_geoEq hsweep.1 hv, hsweep.2⟩ ?_).1
  intro g c hc hg
  constructor
  · exact applyBioChange_voidClean g c hg.1 (hg.2 c hc)
  · intro c' hc'
    have := hg.2 c' hc'
    cases c' <;> try trivial
    all_goals
      dsimp only at this ⊢
      rw [(applyBioChange_em g c _ _).1]
      exact this

theorem mem_coords {w h : ℕ} {q : ℕ × ℕ} (hq : q ∈ coords w h) :
    q.1 < w ∧ q.2 < h := by
  unfold coords at hq
  simp only [List.mem_flatMap, List.mem_map, List.mem_range] at hq
  obtain ⟨y, hy, x, hx, rfl⟩ := hq
  exact ⟨hx, hy⟩

theorem spawnRandomSpecies_em (env : Env) (e : Engine) (r : ℕ) :
    EMEq e.grid (spawnRandomSpecies env e r).1.grid := by
  unfold spawnRandomSpecies
  dsimp only
  split
  · exact emEq_refl _
  · exact updateG_em _ _ _ _ rfl rfl

theorem spawnRandomSpecies_fields (env : Env) (e : Engine) (r : ℕ) :
    (spawnRandomSpecies env e r).1.params = e.params ∧
    (spawnRandomSpecies env e r).1.width = e.width ∧
    (spawnRandomSpecies env e r).1.height = e.height ∧
    (spawnRandomSpecies env e r).1.timeStep = e.timeStep ∧
    (spawnRandomSpecies env e r).1.isFirstSpawn = e.isFirstSpawn ∧
    (spawnRandomSpecies env e r).1.bioExtinctionStep = e.bioExtinctionStep := by
  unfold spawnRandomSpecies
  dsimp only
  split
  all_goals exact ⟨rfl, rfl, rfl, rfl, rfl, rfl⟩

theorem spawnRandomSpecies_voidClean (env : Env) (e : Engine) (r : ℕ)
    (hv : VoidClean e.grid) :
    VoidClean (spawnRandomSpecies env e r).1.grid := by
  unfold spawnRandomSpecies
  dsimp only
  split
  · exact hv
  · rename_i hne
    apply voidClean_updateG hv
    intro hfalse
    have hmem := pick_mem _ ((0 : ℕ), (0 : ℕ)) (env.rng r)
      (fun hnil : (coords e.width e.height).filter _ = [] => by
        rw [hnil] at hne
        exact hne rfl)
    have hf := List.of_mem_filter hmem
    rw [Bool.and_eq_true] at hf
    have hex := (of_decide_eq_true hf.1).1
    dsimp only at hfalse
    rw [hex] at hfalse
    cases hfalse

theorem spawnBio_some_fields (env : Env) (e : Engine) (pros : ℚ) (r : ℕ)
    (er : Engine × ℕ) (h : spawnBio env e pros r = some er) :
    EMEq e.grid er.1.grid ∧ er.1.params = e.params ∧
      er.1.width = e.width ∧ er.1.height = e.height := by
  unfold spawnBio at h
  dsimp only at h
  repeat' split at h
  all_goals
    try
      simp only [Option.some.injEq] at h
      subst h
      exact ⟨emEq_refl _, rfl, rfl, rfl⟩
  all_goals
    rw [Option.map_eq_some'] at h
  all_goals
    obtain ⟨cell, hgc, hcell⟩ := h
  all_goals
    subst hcell
  all_goals
    unfold getCellQ at hgc
  all_goals
    split at hgc
  all_goals
    try exact Option.noConfusion hgc
  all_goals
    simp only [Option.some.injEq] at hgc
  all_goals
    subst hgc
  all_goals
    exact ⟨updateG_em _ _ _ _ rfl rfl, rfl, rfl, rfl⟩

theorem spawnBio_voidClean (env : Env) (e : Engine) (pros : ℚ) (r : ℕ)
    (er : Engine × ℕ) (hsp : e.params.humanSpawnPoint = none)
    (hv : VoidClean e.grid) (h : spawnBio env e pros r = some er) :
    VoidClean er.1.grid := by
  unfold spawnBio at h
  dsimp only at h
  rw [hsp] at h
  dsimp only at h
  by_cases hcand : ((coords e.width e.height).filter fun q =>
      decide ((e.grid q.1 q.2).exists' = true ∧
        (e.grid q.1 q.2).crystalState = CellType.EMPTY ∧
        (e.grid q.1 q.2).temperature ≥ e.params.humanMinTemp ∧
        (e.grid q.1 q.2).temperature ≤ e.params.humanMaxTemp)).isEmpty = true
  · rw [if_pos hcand] at h
    dsimp only at h
    rw [if_neg (by simp)] at h
    simp only [Option.some.injEq] at h
    subst h
    exact hv
  · rw [if_neg hcand] at h
    dsimp only at h
    have hmem := pick_mem _ ((0 : ℕ), (0 : ℕ)) (env.rng r)
      (fun hnil : (coords e.width e.height).filter _ = [] => by
        rw [hnil] at hcand
        exact hcand rfl)
    have hf := List.of_mem_filter hmem
    have hex := (of_decide_eq_true hf).1
    split at h
    · rw [Option.map_eq_some'] at h
      obtain ⟨cell, hgc, hcell⟩ := h
      subst hcell
      unfold getCellQ at hgc
      split at hgc
      · simp only [Option.some.injEq] at hgc
        subst hgc
        apply voidClean_updateG hv
        intro hfalse
        dsimp only at hfalse
        rw [Int.toNat_natCast, Int.toNat_natCast, hex] at hfalse
        cases hfalse
      · cases hgc
    · simp only [Option.some.injEq] at h
      subst h
      exact hv

theorem spawnBio_isSome (env : Env) (e : Engine) (pros : ℚ) (r : ℕ)
    (hsp : e.params.humanSpawnPoint = none ∨
      ∃ pt, e.params.humanSpawnPoint = some pt ∧ 0 ≤ pt.1 ∧
        pt.1 < (e.width : ℤ) ∧ 0 ≤ pt.2 ∧ pt.2 < (e.height : ℤ)) :
    (spawnBio env e pros r).isSome = true := by
  unfold spawnBio
  dsimp only
  rcases hsp with hsp | ⟨pt, hsp, h1, h2, h3, h4⟩
  · rw [hsp]
    dsimp only
    by_cases hcand : ((coords e.width e.height).filter fun q =>
        decide ((e.grid q.1 q.2).exists' = true ∧
          (e.grid q.1 q.2).crystalState = CellType.EMPTY ∧
          (e.grid q.1 q.2).temperature ≥ e.params.humanMinTemp ∧
          (e.grid q.1 q.2).temperature ≤ e.params.humanMaxTemp)).isEmpty = true
    · rw [if_pos hcand]
      dsimp only
      rw [if_neg (by simp)]
      rfl
    · rw [if_neg hcand]
      dsimp only
      have hmem := pick_mem _ ((0 : ℕ), (0 : ℕ)) (env.rng r)
        (fun hnil : (coords e.width e.height).filter _ = [] => by
          rw [hnil] at hcand
          exact hcand rfl)
      have hbounds := mem_coords (List.mem_of_mem_filter hmem)
      split
      · rw [Option.isSome_map']
        unfold getCellQ
        rw [if_pos ?_]
        · rfl
        · refine ⟨Int.natCast_nonneg _, ?_, Int.natCast_nonneg _, ?_⟩
          · exact_mod_cast hbounds.1
          · exact_mod_cast hbounds.2
      · rfl
  · rw [hsp]
    dsimp only
    split
    · rw [Option.isSome_map']
      unfold getCellQ
      rw [if_pos ⟨h1, h2, h3, h4⟩]
      rfl
    · rfl

theorem bioSweepAndCommit_fields (env : Env) (e : Engine) (r : ℕ) :
    (bioSweepAndCommit env e r).1.params = e.params ∧
    (bioSweepAndCommit env e r).1.width = e.width ∧
    (bioSweepAndCommit env e r).1.height = e.height := ⟨rfl, rfl, rfl⟩

theorem bioAutoSpawned_em (env : Env) (e : Engine) (r : ℕ) :
    EMEq e.grid (bioAutoSpawned env e r).1.grid := by
  unfold bioAutoSpawned
  dsimp only
  repeat' split
  all_goals first
    | exact spawnRandomSpecies_em env e r
    | exact emEq_refl _

theorem bioAutoSpawned_fields (env : Env) (e : Engine) (r : ℕ) :
    (bioAutoSpawned env e r).1.params = e.params ∧
    (bioAutoSpawned env e r).1.width = e.width ∧
    (bioAutoSpawned env e r).1.height = e.height := by
  unfold bioAutoSpawned
  dsimp only
  repeat' split
  all_goals first
    | exact ⟨(spawnRandomSpecies_fields env e r).1,
        (spawnRandomSpecies_fields env e r).2.1,
        (spawnRandomSpecies_fields env e r).2.2.1⟩
    | exact ⟨rfl, rfl, rfl⟩

theorem bioAutoSpawned_voidClean (env : Env) (e : Engine) (r : ℕ)
    (hv : VoidClean e.grid) : VoidClean (bioAutoSpawned env e r).1.grid := by
  unfold bioAutoSpawned
  dsimp only
  repeat' split
  all_goals first
    | exact spawnRandomSpecies_voidClean env e r hv
    | exact hv

theorem bioHumanPhase_em (env : Env) (hx : Bool) (e : Engine) (r : ℕ)
    (er : Engine × ℕ) (h : bioHumanPhase env hx e r = some er) :
    EMEq e.grid er.1.grid ∧ er.1.params = e.params ∧
      er.1.width = e.width ∧ er.1.height = e.height := by
  unfold bioHumanPhase at h
  dsimp only at h
  repeat' split at h
  all_goals try exact Option.noConfusion h
  all_goals rw [Option.some.injEq] at h
  all_goals subst h
  all_goals first
    | exact ⟨bioSweepAndCommit_em env _ _, rfl, rfl, rfl⟩
    | (rename_i er2 heq
       exact ⟨emEq_trans (spawnBio_some_fields env _ 100 r er2 heq).1
          (bioSweepAndCommit_em env _ _),
        (spawnBio_some_fields env _ 100 r er2 heq).2.1,
        (spawnBio_some_fields env _ 100 r er2 heq).2.2.1,
        (spawnBio_some_fields env _ 100 r er2 heq).2.2.2⟩)

theorem bioHumanPhase_voidClean (env : Env) (hx : Bool) (e : Engine) (r : ℕ)
    (er : Engine × ℕ) (hsp : e.params.humanSpawnPoint = none)
    (hv : VoidClean e.grid) (h : bioHumanPhase env hx e r = some er) :
    VoidClean er.1.grid := by
  unfold bioHumanPhase at h
  dsimp only at h
  repeat' split at h
  all_goals try exact Option.noConfusion h
  all_goals rw [Option.some.injEq] at h
  all_goals subst h
  all_goals first
    | exact bioSweepAndCommit_voidClean env _ _ hv
    | (rename_i er2 heq
       exact bioSweepAndCommit_voidClean env _ _
        (spawnBio_voidClean env e 100 r er2 hsp hv heq))
    | (rename_i er2 heq
       exact bioSweepAndCommit_voidClean env _ _
        (spawnBio_voidClean env
          { e with bioExtinctionStep := some (e.bioExtinctionStep.getD e.timeStep) }
          100 r er2 hsp hv heq))

theorem bioHumanPhase_isSome (env : Env) (hx : Bool) (e : Engine) (r : ℕ)
    (hsp : e.params.humanSpawnPoint = none ∨
      ∃ pt, e.params.humanSpawnPoint = some pt ∧ 0 ≤ pt.1 ∧
        pt.1 < (e.width : ℤ) ∧ 0 ≤ pt.2 ∧ pt.2 < (e.height : ℤ)) :
    (bioHumanPhase env hx e r).isSome = true := by
  unfold bioHumanPhase
  dsimp only
  repeat' split
  all_goals try rfl
  all_goals rename_i heq
  all_goals first
    | (have hs := spawnBio_isSome env e 100 r hsp
       rw [heq] at hs
       simp at hs)
    | (have hs := spawnBio_isSome env
        { e with bioExtinctionStep := some (e.bioExtinctionStep.getD e.timeStep) }
        100 r hsp
       rw [heq] at hs
       simp at hs)

theorem updateBioLayer_em (env : Env) (e : Engine) (r : ℕ) (er : Engine × ℕ)
    (h : updateBioLayer env e r = some er) :
    EMEq e.grid er.1.grid ∧ er.1.params = e.params ∧
      er.1.width = e.width ∧ er.1.height = e.height := by
  unfold updateBioLayer at h
  dsimp only at h
  have hp := bioHumanPhase_em env (bioHumanExists e) (bioAutoSpawned env e r).1
    (bioAutoSpawned env e r).2 er h
  exact ⟨emEq_trans (bioAutoSpawned_em env e r) hp.1,
    hp.2.1.trans (bioAutoSpawned_fields env e r).1,
    hp.2.2.1.trans (bioAutoSpawned_fields env e r).2.1,
    hp.2.2.2.trans (bioAutoSpawned_fields env e r).2.2⟩

theorem updateBioLayer_voidClean (env : Env) (e : Engine) (r : ℕ)
    (er : Engine × ℕ) (hsp : e.params.humanSpawnPoint = none)
    (hv : VoidClean e.grid) (h : updateBioLayer env e r = some er) :
    VoidClean er.1.grid := by
  unfold updateBioLayer at h
  dsimp only at h
  refine bioHumanPhase_voidClean env _ _ _ er ?_
    (bioAutoSpawned_voidClean env e r hv) h
  rw [(bioAutoSpawned_fields env e r).1, hsp]

theorem updateBioLayer_isSome (env : Env) (e : Engine) (r : ℕ)
    (hsp : e.params.humanSpawnPoint = none ∨
      ∃ pt, e.params.humanSpawnPoint = some pt ∧ 0 ≤ pt.1 ∧
        pt.1 < (e.width : ℤ) ∧ 0 ≤ pt.2 ∧ pt.2 < (e.height : ℤ)) :
    (updateBioLayer env e r).isSome = true := by
  unfold updateBioLayer
  dsimp only
  apply bioHumanPhase_isSome
  rcases hsp with hn | ⟨pt, hpt⟩
  · exact Or.inl (by rw [(bioAutoSpawned_fields env e r).1, hn])
  · refine Or.inr ⟨pt, ?_⟩
    rw [(bioAutoSpawned_fields env e r).1, (bioAutoSpawned_fields env e r).2.1,
      (bioAutoSpawned_fields env e r).2.2]
    exact hpt

theorem updateMantleLayer_fields (env : Env) (e : Engine) (r : ℕ) :
    (updateMantleLayer env e r).1.params = e.params ∧
    (updateMantleLayer env e r).1.width = e.width ∧
    (updateMantleLayer env e r).1.height = e.height ∧
    (updateMantleLayer env e r).1.timeStep = e.timeStep := ⟨rfl, rfl, rfl, rfl⟩

theorem updateClimateLayer_fields (env : Env) (e : Engine) (r : ℕ) :
    (updateClimateLayer env e r).1.params = e.params ∧
    (updateClimateLayer env e r).1.width = e.width ∧
    (updateClimateLayer env e r).1.height = e.height ∧
    (updateClimateLayer env e r).1.timeStep = e.timeStep := ⟨rfl, rfl, rfl, rfl⟩

theorem updateCrystalLayer_fields (env : Env) (e : Engine) (r : ℕ) :
    (updateCrystalLayer env e r).1.params = e.params ∧
    (updateCrystalLayer env e r).1.width = e.width ∧
    (updateCrystalLayer env e r).1.height = e.height ∧
    (updateCrystalLayer env e r).1.timeStep = e.timeStep := ⟨rfl, rfl, rfl, rfl⟩

theorem tick_voidClean (env : Env) (e : Engine) (r : ℕ) (er : Engine × ℕ)
    (hsp : e.params.humanSpawnPoint = none) (hv : VoidClean e.grid)
    (h : tick env e r = some er) : VoidClean er.1.grid := by
  unfold tick at h
  dsimp only at h
  refine updateBioLayer_voidClean env _ _ er ?_ ?_ h
  · exact hsp
  · exact updateCrystalLayer_voidClean env _ _
      (voidClean_of_geoEq (updateClimateLayer_geo env _ _)
        (updateMantleLayer_voidClean env _ _ hv))

theorem tick_protected (env : Env) (e : Engine) (r : ℕ) (er : Engine × ℕ)
    (x y : ℕ) (hex : (e.grid x y).exists' = true)
    (hr : sqrtGt (distSq e.width e.height x y) e.params.minRadius = false)
    (h : tick env e r = some er) : (er.1.grid x y).exists' = true := by
  unfold tick at h
  dsimp only at h
  refine Eq.trans ((updateBioLayer_em env _ _ er h).1 x y).1 ?_
  refine Eq.trans ((updateCrystalLayer_em env _ _ x y).1) ?_
  refine Eq.trans ((updateClimateLayer_geo env _ _ x y).1) ?_
  exact updateMantleLayer_protected env _ r x y hex hr

theorem tick_isSome (env : Env) (e : Engine) (r : ℕ)
    (hsp : e.params.humanSpawnPoint = none ∨
      ∃ pt, e.params.humanSpawnPoint = some pt ∧ 0 ≤ pt.1 ∧
        pt.1 < (e.width : ℤ) ∧ 0 ≤ pt.2 ∧ pt.2 < (e.height : ℤ)) :
    (tick env e r).isSome = true := by
  unfold tick
  dsimp only
  exact updateBioLayer_isSome env _ _ hsp

set_option maxHeartbeats 1600000 in
theorem maxInfluence_nonneg (env : Env) (e : Engine) (x y : ℕ) :
    0 ≤ maxInfluence env e x y := by
  unfold maxInfluence
  dsimp only
  apply foldl_preserve (P := fun m : ℚ => 0 ≤ m)
  · exact le_refl 0
  · intro m pt _ hm
    dsimp only
    repeat' split
    all_goals first
      | (simp only [le_max_iff]
         exact Or.inl hm)
      | exact hm

set_option maxHeartbeats 1600000 in
theorem crystalFlowCommit_alphaInRange (p : SimulationParams) (g : Grid)
    (delta : ℕ → ℕ → ℚ) (hmax : 0 ≤ p.maxCrystalEnergy) :
    AlphaInRange p (crystalFlowCommit p g delta) := by
  intro x y ha
  unfold crystalFlowCommit at ha ⊢
  dsimp only at ha ⊢
  by_cases hA : (g x y).crystalState = CellType.ALPHA
  · rw [if_pos hA]
    dsimp only
    constructor <;> (repeat' split) <;> first | exact le_refl _ | linarith
  · rw [if_neg hA] at ha
    exact absurd ha hA

theorem crystalExpandStep_alphaInRange (env : Env) (p : SimulationParams)
    (w h : ℕ) (st : Grid × List CrystalChange × ℕ) (q : ℕ × ℕ)
    (hc : 0 ≤ p.expansionCost) (hst : AlphaInRange p st.1) :
    AlphaInRange p (crystalExpandStep env p w h st q).1 := by
  unfold crystalExpandStep
  dsimp only
  split
  · rename_i hcond
    split
    · exact hst
    · intro a b ha
      dsimp only at ha ⊢
      by_cases hab : a = q.1 ∧ b = q.2
      · obtain ⟨h1, h2⟩ := hab
        subst h1
        subst h2
        rw [updateG_same]
        dsimp only
        have hb := hst q.1 q.2 hcond.1
        exact ⟨by linarith [hcond.2], by linarith [hb.2]⟩
      · rw [updateG_other _ _ _ _ _ _ hab] at ha ⊢
        exact hst a b ha
  · exact hst

theorem applyCrystalChange_alphaInRange (p : SimulationParams) (g : Grid)
    (c : CrystalChange) (h10 : (10 : ℚ) ≤ p.maxCrystalEnergy)
    (hst : AlphaInRange p g) : AlphaInRange p (applyCrystalChange g c) := by
  unfold applyCrystalChange
  dsimp only
  split
  · intro a b ha
    by_cases hab : a = c.x ∧ b = c.y
    · obtain ⟨h1, h2⟩ := hab
      subst h1
      subst h2
      rw [updateG_same]
      dsimp only
      exact ⟨by norm_num, h10⟩
    · rw [updateG_other _ _ _ _ _ _ hab] at ha ⊢
      exact hst a b ha
  · exact hst

theorem updateCrystalLayer_alphaInRange (env : Env) (e : Engine) (r : ℕ)
    (h10 : (10 : ℚ) ≤ e.params.maxCrystalEnergy)
    (hc : 0 ≤ e.params.expansionCost) :
    AlphaInRange e.params (updateCrystalLayer env e r).1.grid := by
  unfold updateCrystalLayer
  dsimp only
  apply foldl_preserve (P := fun g : Grid => AlphaInRange e.params g)
  · apply foldl_preserve
      (P := fun st : Grid × List CrystalChange × ℕ => AlphaInRange e.params st.1)
      (f := crystalExpandStep env e.params e.width e.height)
    · exact crystalFlowCommit_alphaInRange _ _ _ (le_trans (by norm_num) h10)
    · intro st a _ hstl
      exact crystalExpandStep_alphaInRange env e.params e.width e.height st a hc hstl
  · intro g' ch _ hg'
    exact applyCrystalChange_alphaInRange e.params g' ch h10 hg'

theorem metabolismCell_beta (p : SimulationParams) (cell : Cell)
    (hB : cell.crystalState = CellType.BETA) :
    (metabolismCell p cell).crystalState = CellType.BETA := by
  unfold metabolismCell
  dsimp only
  repeat' split
  all_goals first
    | exact hB
    | rfl

theorem metabolismCell_alpha_exhaust (p : SimulationParams) (cell : Cell)
    (hA : cell.crystalState = CellType.ALPHA)
    (hpre : metabPreClamp p cell ≤ 0) :
    (metabolismCell p cell).crystalState = CellType.BETA ∧
    (metabolismCell p cell).storedEnergy = 0 := by
  unfold metabPreClamp at hpre
  unfold metabolismCell
  dsimp only at hpre ⊢
  rw [if_pos hA] at hpre
  by_cases h10 : cell.mantleEnergy > 10 <;>
    first
      | rw [if_pos h10] at hpre ⊢
      | rw [if_neg h10] at hpre ⊢
  all_goals try dsimp only at hpre ⊢
  all_goals
    (by_cases hts : cell.hasThunderstorm = true <;>
      first
        | rw [if_pos hts] at hpre ⊢
        | rw [if_neg hts] at hpre ⊢)
  all_goals try dsimp only at hpre ⊢
  all_goals rw [if_pos hA]
  all_goals try dsimp only
  all_goals split
  all_goals try dsimp only
  all_goals first
    | exact ⟨rfl, rfl⟩
    | (rename_i hgt
       rw [if_pos (show p.maxCrystalEnergy ≤ 0 by linarith)]
       exact ⟨rfl, rfl⟩)
    | (rw [if_pos hpre]
       exact ⟨rfl, rfl⟩)

theorem migrationTarget_mem_empty (g : Grid) (mid : ℚ) (l : List (ℕ × ℕ))
    (hne : ¬((l.filter fun q => decide ((g q.1 q.2).exists' = true ∧
      (g q.1 q.2).crystalState = CellType.EMPTY)).isEmpty = true)) :
    bioMigrationTarget g mid (l.filter fun q =>
        decide ((g q.1 q.2).exists' = true ∧
          (g q.1 q.2).crystalState = CellType.EMPTY)) ∈ l ∧
    (g (bioMigrationTarget g mid (l.filter fun q =>
        decide ((g q.1 q.2).exists' = true ∧
          (g q.1 q.2).crystalState = CellType.EMPTY))).1
      (bioMigrationTarget g mid (l.filter fun q =>
        decide ((g q.1 q.2).exists' = true ∧
          (g q.1 q.2).crystalState = CellType.EMPTY))).2).exists' = true ∧
    (g (bioMigrationTarget g mid (l.filter fun q =>
        decide ((g q.1 q.2).exists' = true ∧
          (g q.1 q.2).crystalState = CellType.EMPTY))).1
      (bioMigrationTarget g mid (l.filter fun q =>
        decide ((g q.1 q.2).exists' = true ∧
          (g q.1 q.2).crystalState = CellType.EMPTY))).2).crystalState =
      CellType.EMPTY := by
  have hmem := bioMigrationTarget_mem g mid
    (l.filter fun q => decide ((g q.1 q.2).exists' = true ∧
      (g q.1 q.2).crystalState = CellType.EMPTY))
    (by intro hnil; rw [hnil] at hne; exact hne rfl)
  have hf := List.of_mem_filter hmem
  simp only [decide_eq_true_eq] at hf
  exact ⟨List.mem_of_mem_filter hmem, hf.1, hf.2⟩

/-! ### Concrete environments and states for counterexamples and witnesses

The Batteries rational arithmetic is irreducible by default; restoring
semireducibility lets concrete executions of the embedding be settled by
kernel reduction. -/

attribute [local semireducible] Rat.add Rat.mul Rat.sub Rat.inv Rat.ofScientific

/-- Concrete oracle environment: zero noise, cos 0 = 1 stand-in, polar
angle 0, a rational π stand-in, and an all-zero random stream. -/
def cEnv : Env :=
  { noise := fun _ _ => 0
    cosQ := fun _ => 1
    atan2Q := fun _ _ => 0
    piQ := 3
    rng := fun _ => 0 }

/-- A plain cell constructor for hand-built grids. -/
def mkCell (ex : Bool) (m t : ℚ) (cs : CellType) (se : ℚ) : Cell :=
  { exists' := ex, mantleEnergy := m, expansionAccumulator := 0,
    shrinkAccumulator := 0, temperature := t, hasThunderstorm := false,
    crystalState := cs, crystalEnergy := 0, storedEnergy := se,
    isAbsorbing := false, energyFlow := [], prosperity := 0,
    isMining := false, bioAttributes := none }

/-- A quiet parameter block: no noise motion, no edge energy, thresholds
that keep the terrain static. -/
def quietParams : SimulationParams :=
  { mantleTimeScale := 0, expansionThreshold := 1000, shrinkThreshold := 0,
    mantleEnergyLevel := 100, maxRadius := 15, minRadius := 0,
    distortionSpeed := 0, edgeGenerationWidth := 3, edgeGenerationEnergy := 0,
    edgeGenerationOffset := 1, edgeSupplyPointCount := 1,
    edgeSupplyPointSpeed := 0, mantleHeatFactor := 1000,
    diffusionRate := 0.2, thunderstormThreshold := 39,
    alphaEnergyDemand := 4.5, betaEnergyDemand := 2, mantleAbsorption := 0.1,
    thunderstormEnergy := 32, expansionCost := 8.5, maxCrystalEnergy := 50,
    energySharingRate := 1.45, energyDecayRate := 0.09, extinctionBonus := 50,
    competitionPenalty := 5, mutationRate := 0.1, mutationStrength := 0.1,
    newSpeciesThreshold := 0.2, minProsperityGrowth := 5,
    sameSpeciesBonus := 0.5, humanMinTemp := 7, humanMaxTemp := 34,
    humanSurvivalMinTemp := -50, humanSurvivalMaxTemp := 50,
    humanProsperityGrowth := 0.5, humanProsperityDecay := 1.4,
    humanExpansionThreshold := 80, humanMiningReward := 27,
    humanMigrationThreshold := 80, alphaRadiationDamage := 10,
    humanSpawnPoint := none, humanRespawnDelay := 20,
    bioAutoSpawnCount := 5, bioAutoSpawnInterval := 10 }

/-- 2-by-2 all-land state with a freshly exhausted Beta crystal at (0,0):
the state a Beta cell is in on the tick after its demotion. -/
def ce2State : Engine :=
  { width := 2, height := 2
    grid := fun x y =>
      if x = 0 && y = 0 then mkCell true 10 0 CellType.BETA 0
      else mkCell true 10 0 CellType.EMPTY 10
    timeStep := 1, cycleCount := 0, params := quietParams
    noiseOffsetX := 0, noiseOffsetY := 0
    edgeSupplyPoints := [{ angle := 0, speed := 0.05 }]
    bioExtinctionStep := none, isFirstSpawn := true }

/-- Genome used by the hand-built settlements: comfortable around 0°,
wide survival band, no expansion, migration threshold 80. -/
def c1Attrs : BioAttrs :=
  { minTemp := -10, maxTemp := 10, survivalMinTemp := -50,
    survivalMaxTemp := 50, prosperityGrowth := 1, prosperityDecay := 1,
    expansionThreshold := 1000, miningReward := 27, migrationThreshold := 80,
    alphaRadiationDamage := 10, speciesId := 7, color := 120 }

/-- 3-by-3 all-land state whose corner settlement is about to be shrunk
away: low corner mantle energy against a raised shrink threshold, the
accumulator one step from firing. -/
def ce1 : Engine :=
  { width := 3, height := 3
    grid := fun x y =>
      if x = 0 && y = 0 then
        { mkCell true 10 0 CellType.BIO 0 with
            shrinkAccumulator := 185, prosperity := 50,
            bioAttributes := some c1Attrs }
      else mkCell true 60 0 CellType.EMPTY 10
    timeStep := 1, cycleCount := 0
    params := { quietParams with shrinkThreshold := 50 }
    noiseOffsetX := 0, noiseOffsetY := 0
    edgeSupplyPoints := [{ angle := 0, speed := 0.05 }]
    bioExtinctionStep := none, isFirstSpawn := true }

/-- The engine after one tick of ce1. -/
def ce1res : Engine × ℕ := (tick cEnv ce1 0).getD (ce1, 0)

/-- 2-by-2 all-land state with one healthy Alpha crystal. -/
def cw2 : Engine :=
  { ce2State with
      grid := fun x y =>
        if x = 0 && y = 0 then mkCell true 10 0 CellType.ALPHA 20
        else mkCell true 10 0 CellType.EMPTY 10 }

/-- A freshly initialised 3-by-3 engine whose protected radius is larger
than the initial land disk: the corners start void. -/
def ce3 : Engine := (mkEngine cEnv 3 3 { quietParams with minRadius := 10 } 0).1

/-- The engine after one tick of ce3. -/
def ce3res : Engine × ℕ := (tick cEnv ce3 0).getD (ce3, 0)

/-- 3-by-3 all-land state with a supply point at angle 0 and parameters
that put the centre cell inside the spec's radial supply band. -/
def ce4 : Engine :=
  { width := 3, height := 3
    grid := fun _ _ => mkCell true 10 0 CellType.EMPTY 10
    timeStep := 1, cycleCount := 0
    params := { quietParams with
      maxRadius := 2
      edgeGenerationOffset := 0
      edgeGenerationWidth := 2
      edgeGenerationEnergy := 19.5 }
    noiseOffsetX := 0, noiseOffsetY := 0
    edgeSupplyPoints := [{ angle := 0, speed := 0.05 }]
    bioExtinctionStep := none, isFirstSpawn := true }

/-- 2-by-1 state with a deep-frozen cell (-60°) next to a 0° cell, far
above the storm threshold of 39. -/
def ce5 : Engine :=
  { width := 2, height := 1
    grid := fun x y =>
      if x = 0 && y = 0 then mkCell true 10 (-60) CellType.EMPTY 10
      else mkCell true 10 0 CellType.EMPTY 10
    timeStep := 1, cycleCount := 0, params := quietParams
    noiseOffsetX := 0, noiseOffsetY := 0
    edgeSupplyPoints := [{ angle := 0, speed := 0.05 }]
    bioExtinctionStep := none, isFirstSpawn := true }

/-- A Beta cell sitting on hot mantle (20 > 10). -/
def c6cell : Cell := mkCell true 20 0 CellType.BETA 5

/-- Grid with an Alpha at (0,0) whose stored energy cannot cover the
Alpha maintenance demand, and Beta cells elsewhere. -/
def cg7 : Grid := fun x y =>
  if x = 0 && y = 0 then mkCell true 5 0 CellType.ALPHA 3
  else mkCell true 5 0 CellType.BETA 0

/-- 2-by-2 all-land state with one settlement at (0,0) whose prosperity
will land strictly between 0 and its migration threshold. -/
def ce8 : Engine :=
  { width := 2, height := 2
    grid := fun x y =>
      if x = 0 && y = 0 then
        { mkCell true 10 0 CellType.BIO 0 with
            prosperity := 50, bioAttributes := some c1Attrs }
      else mkCell true 10 0 CellType.EMPTY 10
    timeStep := 1, cycleCount := 0, params := quietParams
    noiseOffsetX := 0, noiseOffsetY := 0
    edgeSupplyPoints := [{ angle := 0, speed := 0.05 }]
    bioExtinctionStep := some 2, isFirstSpawn := false }

/-- 2-by-2 state one step before the first human spawn, with the forced
human spawn point outside the grid. -/
def ce9 : Engine :=
  { width := 2, height := 2
    grid := fun _ _ => mkCell true 10 0 CellType.EMPTY 10
    timeStep := 50, cycleCount := 0
    params := { quietParams with humanSpawnPoint := some (5, 5) }
    noiseOffsetX := 0, noiseOffsetY := 0
    edgeSupplyPoints := [{ angle := 0, speed := 0.05 }]
    bioExtinctionStep := none, isFirstSpawn := true }

/-- 3-by-3 state with two settlements at opposite corners, both adjacent
to the single Beta crystal in the centre. -/
def ce10 : Engine :=
  { width := 3, height := 3
    grid := fun x y =>
      if (x = 0 && y = 0) || (x = 2 && y = 2) then
        { mkCell true 10 0 CellType.BIO 0 with
            prosperity := 50, bioAttributes := some c1Attrs }
      else if x = 1 && y = 1 then mkCell true 10 0 CellType.BETA 5
      else mkCell true 10 0 CellType.EMPTY 10
    timeStep := 1, cycleCount := 0, params := quietParams
    noiseOffsetX := 0, noiseOffsetY := 0
    edgeSupplyPoints := [{ angle := 0, speed := 0.05 }]
    bioExtinctionStep := some 2, isFirstSpawn := false }

/-- Every cell of ce1 exists, so the void-cell invariant holds vacuously
on its initial grid. -/
theorem ce1_voidClean : VoidClean ce1.grid := by
  intro x y h
  revert h
  unfold ce1
  dsimp only
  split
  · intro h
    exact absurd h (by decide)
  · intro h
    exact absurd h (by decide)

/-! ### The claims -/

set_option maxRecDepth 100000 in
/-- C1 (counterexample): after one tick of ce1 the corner cell has been
shrunk away (exists = false) yet still carries its bioAttributes record,
against the spec's "bioAttributes absent" clause of the void invariant. -/
theorem C1_counterexample :
    (tick cEnv ce1 0).map (fun er => decide ((er.1.grid 0 0).exists' = false ∧
      (er.1.grid 0 0).bioAttributes ≠ none)) = some true := by
  decide

/-- C1 (amended): over a tick, void cells keep mantleEnergy 0 and an
EMPTY crystal state (given the invariant on entry and no forced human
spawn point); the bioAttributes clause of the spec's invariant is the
part that fails. -/
theorem C1_amended (env : Env) (e : Engine) (r : ℕ) (er : Engine × ℕ)
    (hsp : e.params.humanSpawnPoint = none) (hv : VoidClean e.grid)
    (h : tick env e r = some er) : VoidClean er.1.grid :=
  tick_voidClean env e r er hsp hv h

set_option maxRecDepth 100000 in
/-- C1 (witness): the amended invariant holds after one tick of ce1. -/
theorem C1_amended_witness : VoidClean ce1res.1.grid :=
  C1_amended cEnv ce1 0 ce1res rfl ce1_voidClean (eq_some_getD _ _ (by decide))

set_option maxRecDepth 100000 in
/-- C2 (counterexample): the exhausted Beta cell of ce2State ends the
tick with stored energy −2 < 0: Beta maintenance is deducted without a
lower clamp, refuting 0 ≤ storedEnergy. -/
theorem C2_counterexample :
    (tick cEnv ce2State 0).map
      (fun er => decide ((er.1.grid 0 0).storedEnergy < 0)) = some true := by
  decide

/-- C2 (amended): after the crystal layer, every ALPHA cell's stored
energy lies in [0, maxCrystalEnergy], provided maxCrystalEnergy ≥ 10 and
expansionCost ≥ 0; the spec's bound fails only for Beta cells (and for
the bio layer's unclamped extinction bonus). -/
theorem C2_amended (env : Env) (e : Engine) (r : ℕ) (x y : ℕ)
    (h10 : (10 : ℚ) ≤ e.params.maxCrystalEnergy)
    (hc : 0 ≤ e.params.expansionCost)
    (ha : ((updateCrystalLayer env e r).1.grid x y).crystalState =
      CellType.ALPHA) :
    0 ≤ ((updateCrystalLayer env e r).1.grid x y).storedEnergy ∧
    ((updateCrystalLayer env e r).1.grid x y).storedEnergy ≤
      e.params.maxCrystalEnergy :=
  updateCrystalLayer_alphaInRange env e r h10 hc x y ha

set_option maxRecDepth 100000 in
/-- C2 (witness): the amended Alpha bound at the concrete state cw2. -/
theorem C2_amended_witness :
    0 ≤ ((updateCrystalLayer cEnv cw2 0).1.grid 0 0).storedEnergy ∧
    ((updateCrystalLayer cEnv cw2 0).1.grid 0 0).storedEnergy ≤
      cw2.params.maxCrystalEnergy :=
  C2_amended cEnv cw2 0 0 0 (by decide) (by decide) (by decide)

set_option maxRecDepth 100000 in
/-- C3 (counterexample): in ce3 the corner (0,0) lies within minRadius
(= 10) of the centre, yet it is void and stays void after a tick: the
protected disk never creates land, it only blocks shrinking. -/
theorem C3_counterexample :
    sqrtGt (distSq 3 3 0 0) ce3.params.minRadius = false ∧
    (tick cEnv ce3 0).map (fun er => (er.1.grid 0 0).exists') = some false := by
  decide

/-- C3 (amended): a cell that exists and lies within minRadius of the
centre still exists after a tick: the disk protects existing land from
shrinking (it does not force void cells into existence). -/
theorem C3_amended (env : Env) (e : Engine) (r : ℕ) (er : Engine × ℕ)
    (x y : ℕ) (hex : (e.grid x y).exists' = true)
    (hr : sqrtGt (distSq e.width e.height x y) e.params.minRadius = false)
    (h : tick env e r = some er) : (er.1.grid x y).exists' = true :=
  tick_protected env e r er x y hex hr h

set_option maxRecDepth 100000 in
/-- C3 (witness): the protected centre cell of ce3 survives a tick. -/
theorem C3_amended_witness : (ce3res.1.grid 1 1).exists' = true :=
  C3_amended cEnv ce3 0 ce3res 1 1 (by decide) (by decide)
    (eq_some_getD _ _ (by decide))

set_option maxRecDepth 100000 in
/-- C4 (counterexample): the centre cell of ce4 lies in the spec's
radial supply band with a supply point dead ahead, yet the code's Phase A
energy differs from the spec's (the code gates on a void neighbour, which
the fully surrounded centre cell lacks). -/
theorem C4_counterexample :
    specEdgeEligible ce4 1 1 = true ∧
    specMantleNewEnergy cEnv ce4 1 1 ≠ mantleNewEnergy cEnv ce4 1 1 := by
  decide

/-- C4 (amended): the Phase A energy equals the base update plus the
edge term edgeGenerationEnergy · maxInfluence gated on the void-neighbour
test (then the Alpha draw); the spec's radial band plays no role. -/
theorem C4_amended (env : Env) (e : Engine) (x y : ℕ) :
    mantleNewEnergy env e x y =
      (if (e.grid x y).crystalState = CellType.ALPHA then
        (mantleBaseEnergy env e x y + specEdgeSupplyAmended env e x y) -
          (mantleBaseEnergy env e x y + specEdgeSupplyAmended env e x y) *
            e.params.mantleAbsorption
      else mantleBaseEnergy env e x y + specEdgeSupplyAmended env e x y) := by
  unfold mantleNewEnergy specEdgeSupplyAmended
  dsimp only
  by_cases hVN : hasVoidNeighbor e x y = true
  · rw [if_pos hVN, if_pos hVN]
    by_cases hinfl : maxInfluence env e x y > 0
    · rw [if_pos hinfl]
    · rw [if_neg hinfl]
      have h0 : maxInfluence env e x y = 0 :=
        le_antisymm (not_lt.1 hinfl) (maxInfluence_nonneg env e x y)
      rw [h0]
      split <;> ring
  · rw [if_neg hVN, if_neg hVN]
    split <;> ring

set_option maxRecDepth 100000 in
/-- C5 (counterexample): the −60° cell of ce5 gets its storm flag set by
the climate layer although the spec's trigger (temperature floor −50,
draw below 0.15) evaluates to false on the same inputs. -/
theorem C5_counterexample :
    ((updateClimateLayer cEnv ce5 0).1.grid 0 0).hasThunderstorm = true ∧
    specStormTrigger ce5.params (ce5.grid 0 0).temperature
      (|(ce5.grid 0 0).temperature - (ce5.grid 1 0).temperature|)
      (cEnv.rng 0) = false := by
  decide

/-- C5 (amended): in the climate sweep a land cell with an existing
neighbour gets hasThunderstorm = true exactly when the gradient
|T − avg| exceeds thunderstormThreshold and the storm draw is below 0.1:
there is no temperature floor and the probability is 0.1, not 0.15. -/
theorem C5_amended (env : Env) (p : SimulationParams) (w h : ℕ) (g : Grid)
    (tmap : ℕ → ℕ → ℚ) (r : ℕ) (x y : ℕ) (hex : (g x y).exists' = true)
    (hnb : (getNeighbors g w h x y false).isEmpty = false) :
    (((climateCellStep env p w h (g, tmap, r) (x, y)).1 x y).hasThunderstorm
        = true ↔
      (|(g x y).temperature -
          ((getNeighbors g w h x y false).map
            (fun q => (g q.1 q.2).temperature)).sum /
            ((getNeighbors g w h x y false).length : ℚ)| >
          p.thunderstormThreshold ∧
        env.rng r < 0.1)) := by
  unfold climateCellStep
  dsimp only
  rw [if_neg (show ¬((!(g x y).exists') = true) by rw [hex]; decide)]
  rw [if_neg (show ¬((getNeighbors g w h x y false).isEmpty = true) by
    rw [hnb]; decide)]
  try dsimp only
  split
  · rename_i hgt
    dsimp only
    rw [updateG_same]
    dsimp only
    simp only [decide_eq_true_eq]
    exact ⟨fun hd => ⟨hgt, hd⟩, fun hd => hd.2⟩
  · rename_i hng
    dsimp only
    rw [updateG_same]
    exact ⟨fun hd => Bool.noConfusion hd, fun hd => absurd hd.1 hng⟩

set_option maxRecDepth 100000 in
/-- C5 (witness): the amended storm rule at the frozen corner of ce5. -/
theorem C5_amended_witness :
    (((climateCellStep cEnv ce5.params 2 1 (ce5.grid, (fun _ _ => 0), 0)
          (0, 0)).1 0 0).hasThunderstorm = true ↔
      (|(ce5.grid 0 0).temperature -
          ((getNeighbors ce5.grid 2 1 0 0 false).map
            (fun q => (ce5.grid q.1 q.2).temperature)).sum /
            ((getNeighbors ce5.grid 2 1 0 0 false).length : ℚ)| >
          ce5.params.thunderstormThreshold ∧
        cEnv.rng 0 < 0.1)) :=
  C5_amended cEnv ce5.params 2 1 ce5.grid (fun _ _ => 0) 0 0 0 (by decide)
    (by decide)

/-- C6 (code bug): the metabolism sub-pass gates mantle absorption only
on mantleEnergy > 10 (engine.ts line 614), not on the Alpha state the
spec (and the source's own comment) require, so a Beta cell on hot
mantle absorbs and is flagged isAbsorbing. -/
theorem C6_bug (p : SimulationParams) (cell : Cell)
    (hB : cell.crystalState = CellType.BETA)
    (hm : cell.mantleEnergy > 10) :
    (metabolismCell p cell).isAbsorbing = true := by
  unfold metabolismCell
  dsimp only
  rw [if_pos hm]
  dsimp only
  repeat' split
  all_goals rfl

set_option maxRecDepth 100000 in
/-- C6 (witness): the concrete Beta cell on hot mantle absorbs. -/
theorem C6_bug_witness : (metabolismCell quietParams c6cell).isAbsorbing = true :=
  C6_bug quietParams c6cell (by decide) (by decide)

/-- C7: in the metabolism sub-pass, an existing Alpha cell whose stored
energy after absorption, storm charge and the maintenance deduction is
≤ 0 is demoted to Beta with stored energy 0, and a Beta cell never loses
its crystal state there (exhaustion never removes a Beta cell). -/
theorem C7_exhaustion (p : SimulationParams) (g : Grid) (x y : ℕ)
    (hex : (g x y).exists' = true) :
    ((g x y).crystalState = CellType.ALPHA → metabPreClamp p (g x y) ≤ 0 →
      (crystalMetabolism p g x y).crystalState = CellType.BETA ∧
      (crystalMetabolism p g x y).storedEnergy = 0) ∧
    ((g x y).crystalState = CellType.BETA →
      (crystalMetabolism p g x y).crystalState = CellType.BETA) := by
  constructor
  · intro hA hpre
    unfold crystalMetabolism
    dsimp only
    rw [if_pos ⟨hex, by rw [hA]; decide, by rw [hA]; decide⟩]
    exact metabolismCell_alpha_exhaust p (g x y) hA hpre
  · intro hB
    unfold crystalMetabolism
    dsimp only
    split
    · exact metabolismCell_beta p (g x y) hB
    · exact hB

set_option maxRecDepth 100000 in
/-- C7 (witness): the underfunded Alpha of cg7 is demoted to Beta with
stored energy 0 in the metabolism sub-pass. -/
theorem C7_exhaustion_witness :
    (crystalMetabolism quietParams cg7 0 0).crystalState = CellType.BETA ∧
    (crystalMetabolism quietParams cg7 0 0).storedEnergy = 0 :=
  (C7_exhaustion quietParams cg7 0 0 (by decide)).1 (by decide) (by decide)

set_option maxRecDepth 100000 in
/-- C8 (counterexample): after one tick of ce8 the distressed settlement
has been rebuilt on the neighbour cell (1,0) and its original cell is
empty with no record at all — there is no migrant left on the same cell
as the spec claims. -/
theorem C8_counterexample :
    (tick cEnv ce8 0).map (fun er => decide (
      (er.1.grid 0 0).crystalState = CellType.EMPTY ∧
      (er.1.grid 0 0).bioAttributes = none ∧
      (er.1.grid 1 0).crystalState = CellType.BIO ∧
      (er.1.grid 1 0).prosperity = 55 ∧
      (er.1.grid 1 0).bioAttributes = some c1Attrs)) = some true := by
  decide

/-- C8 (amended): every MIGRATE entry queued by the bio sweep for cell
(x,y) targets an existing, EMPTY neighbour of (x,y) (the settlement is
relocated there), and the same queue also removes the settlement from
(x,y); no migrant record is produced. -/
theorem C8_amended (env : Env) (p : SimulationParams) (w h : ℕ) (g : Grid)
    (x y r : ℕ) (tx ty : ℕ) (pros : ℚ) (attrs : BioAttrs)
    (hc : BioChange.migrate tx ty pros attrs ∈
      (bioCellChanges env p w h g x y r).1) :
    ((tx, ty) ∈ getNeighbors g w h x y false ∧ (g tx ty).exists' = true ∧
      (g tx ty).crystalState = CellType.EMPTY) ∧
    BioChange.state x y ∈ (bioCellChanges env p w h g x y r).1 := by
  revert hc
  unfold bioCellChanges
  dsimp only
  repeat' first
    | split
    | dsimp only
  all_goals intro hc
  all_goals simp only [List.append_assoc, List.mem_append, List.mem_singleton,
    List.mem_cons, List.not_mem_nil, or_false, false_or] at hc
  all_goals repeat' (rcases hc with hc | hc)
  all_goals try exact absurd hc (by simp)
  all_goals
    (refine ⟨?_, by simp⟩
     have hm := migrationTarget_mem_empty g ((attrs.minTemp + attrs.maxTemp) / 2)
       (getNeighbors g w h x y false) (by assumption)
     exact ⟨hm.1, hm.2.1, hm.2.2⟩)

set_option maxRecDepth 100000 in
/-- C8 (witness): the concrete migration of ce8's settlement targets the
existing empty neighbour (1,0) and removes the settlement from (0,0). -/
theorem C8_amended_witness :
    (((1 : ℕ), (0 : ℕ)) ∈ getNeighbors ce8.grid 2 2 0 0 false ∧
      (ce8.grid 1 0).exists' = true ∧
      (ce8.grid 1 0).crystalState = CellType.EMPTY) ∧
    BioChange.state 0 0 ∈
      (bioCellChanges cEnv quietParams 2 2 ce8.grid 0 0 0).1 :=
  C8_amended cEnv quietParams 2 2 ce8.grid 0 0 0 1 0 55 c1Attrs (by decide)

set_option maxRecDepth 100000 in
/-- C9 (counterexample): with a forced human spawn point outside the
grid, the first human spawn tick fails (the source's unchecked grid
access throws), refuting "tick never raises for any parameter block". -/
theorem C9_counterexample : (tick cEnv ce9 0).isSome = false := by
  decide

/-- C9 (amended): tick always succeeds when the configured human spawn
point is absent or lies inside the grid bounds. -/
theorem C9_amended (env : Env) (e : Engine) (r : ℕ)
    (hsp : e.params.humanSpawnPoint = none ∨
      ∃ pt, e.params.humanSpawnPoint = some pt ∧ 0 ≤ pt.1 ∧
        pt.1 < (e.width : ℤ) ∧ 0 ≤ pt.2 ∧ pt.2 < (e.height : ℤ)) :
    (tick env e r).isSome = true :=
  tick_isSome env e r hsp

/-- C9 (witness): a tick of ce2State (no forced spawn point) succeeds. -/
theorem C9_amended_witness : (tick cEnv ce2State 0).isSome = true :=
  C9_amended cEnv ce2State 0 (Or.inl rfl)

set_option maxRecDepth 100000 in
/-- C10: in ce10 both settlements are adjacent to the single central
Beta crystal; after one tick each has gained its full mining reward
(prosperity 50 → 82 = 50 + 5 growth + 27 reward, both flagged mining)
while only that one Beta cell was consumed: the total reward granted in
the tick (54) exceeds miningReward (27) times the Beta cells consumed
(one). -/
theorem C10_double_mining :
    (ce10.grid 0 0).prosperity = 50 ∧ (ce10.grid 2 2).prosperity = 50 ∧
    (ce10.grid 1 1).crystalState = CellType.BETA ∧
    (tick cEnv ce10 0).map (fun er => decide (
      (er.1.grid 0 0).prosperity = 82 ∧ (er.1.grid 2 2).prosperity = 82 ∧
      (er.1.grid 0 0).isMining = true ∧ (er.1.grid 2 2).isMining = true ∧
      (er.1.grid 1 1).crystalState = CellType.EMPTY)) = some true := by
  decide
